import Mathlib

/-!
# SpectralBRDFExplorer: OpenGLRenderer

A shallow embedding of `OpenGLRenderer.cpp` (`start`, `update`, `draw`, `shutdown`).

* Floating point values, vectors, matrices and the camera class are kept abstract:
  a `Glm` record bundles the carrier types with the library operations the renderer
  calls (`glm::perspective`, `glm::ortho`, `glm::lookAt`, `glm::inverseTranspose`,
  matrix product, `fabs`, ...).  Every statement below holds for any such record,
  in particular for the IEEE one the compiled program runs on.
* Pointers stored in program objects are modelled by the object they point at
  (the i-th model of the scene, the renderer's own camera, ...).
* Calls into the GL context and into collaborating classes are recorded in call logs.
-/

namespace SpectralBRDFExplorer

/-! ## Numeric and camera interface -/

/-- Carrier types and library operations used by the renderer. -/
structure Glm where
  /-- C `float`. -/
  F : Type
  /-- C `double`. -/
  D : Type
  /-- Type `glm::vec3`. -/
  V : Type
  /-- Type `glm::mat4`. -/
  M : Type
  /-- Class `OpenGLCamera`. -/
  Cam : Type
  /-- A float literal with an integral value, such as `65.0f`. -/
  lit : Int → F
  /-- Float division. -/
  div : F → F → F
  /-- Absolute value `fabs`. -/
  fabs : F → F
  /-- Function `glm::radians`. -/
  radians : F → F
  /-- Constructor `glm::vec3(x, y, z)`. -/
  vec3 : F → F → F → V
  /-- Function `glm::perspective(fovy, aspect, near, far)`. -/
  perspective : F → F → F → F → M
  /-- Function `glm::ortho(left, right, bottom, top, zNear, zFar)`. -/
  ortho : F → F → F → F → F → F → M
  /-- Function `glm::lookAt(eye, center, up)`. -/
  lookAt : V → V → V → M
  /-- Matrix product `a * b`. -/
  mul : M → M → M
  /-- Function `glm::inverseTranspose`. -/
  inverseTranspose : M → M
  /-- Field `OpenGLCamera::center`. -/
  center : Cam → V
  /-- Method `OpenGLCamera::lookAtMatrix()`. -/
  lookAtMatrix : Cam → M
  /-- Method `OpenGLCamera::setSceneCenter(center)`, as the camera it leaves. -/
  setSceneCenter : Cam → V → Cam
  /-- Constant `VERTEX_POS_INDX`. -/
  VERTEX_POS_INDX : Nat
  /-- Constant `VERTEX_NORMAL_INDX`. -/
  VERTEX_NORMAL_INDX : Nat
  /-- Constant `VERTEX_POS_SIZE`. -/
  VERTEX_POS_SIZE : Nat
  /-- Constant `VERTEX_NORMAL_SIZE`. -/
  VERTEX_NORMAL_SIZE : Nat

/-! ## GL names -/

/-- The GL symbolic constants that occur in the renderer. -/
inductive GLenum
  | GL_NONE
  | GL_VIEWPORT
  | GL_FRAMEBUFFER_BINDING
  | GL_FRAMEBUFFER
  | GL_CULL_FACE
  | GL_DEPTH_TEST
  | GL_POLYGON_OFFSET_FILL
  | GL_DEPTH_BUFFER_BIT
  | GL_ARRAY_BUFFER
  | GL_FLOAT
  | GL_TRIANGLES
  | GL_TEXTURE_MIN_FILTER
  | GL_TEXTURE_MAG_FILTER
  | GL_TEXTURE_WRAP_S
  | GL_TEXTURE_WRAP_T
  | GL_TEXTURE_COMPARE_MODE
  | GL_TEXTURE_COMPARE_FUNC
  | GL_NEAREST
  | GL_CLAMP_TO_EDGE
  | GL_COMPARE_REF_TO_TEXTURE
  | GL_LEQUAL
  | GL_DEPTH_COMPONENT24
  | GL_DEPTH_COMPONENT
  | GL_UNSIGNED_INT
  | GL_DEPTH_ATTACHMENT
  deriving DecidableEq, Repr

/-! ## Scene -/

/-- Class `Model3D`, with the fields the renderer reads or writes. -/
structure Model3D (G : Glm) where
  _vboId : Nat
  /-- Value of `modelData().getStride()`. -/
  stride : Int
  /-- Value of `modelData().getNumberOfVerticesToDraw()`. -/
  numberOfVerticesToDraw : Int
  _modelMatrix : G.M
  _modelViewMatrix : G.M
  _modelViewProjectionMatrix : G.M
  _normalMatrix : G.M
  _modelViewProjectionLightMatrix : G.M

/-- The skybox model of the scene. -/
structure SkyboxModel (G : Glm) where
  _vboId : Nat
  _modelMatrix : G.M
  _modelViewProjectionMatrix : G.M

/-- The singleton `Scene::instance()`. -/
structure Scene (G : Glm) where
  models : List (Model3D G)
  skybox : SkyboxModel G
  sceneCenter : G.V
  nearPlane : G.F
  farPlane : G.F
  lightDirection : G.V

/-! ## Renderer state -/

/-- Target of the pointer `OpenGLRGBModelProgram::model`. -/
inductive ModelPtr
  | null
  | sceneModel (i : Nat)
  deriving DecidableEq, Repr

/-- Target of the pointer `OpenGLRGBModelProgram::openGLCamera`. -/
inductive CameraPtr
  | null
  | rendererCamera
  deriving DecidableEq, Repr

/-- Target of the pointer `OpenGLRGBModelProgram::shadowTexture`. -/
inductive TexturePtr
  | null
  | rendererShadowTexture
  deriving DecidableEq, Repr

/-- Target of the pointer `OpenGLSkyboxProgram::skyboxModel`. -/
inductive SkyboxPtr
  | null
  | sceneSkybox
  deriving DecidableEq, Repr

/-- Class `OpenGLRGBModelProgram`. -/
structure OpenGLRGBModelProgram where
  program : Nat
  model : ModelPtr
  openGLCamera : CameraPtr
  shadowTexture : TexturePtr
  deriving DecidableEq, Repr

/-- Class `OpenGLSkyboxProgram`. -/
structure OpenGLSkyboxProgram where
  program : Nat
  skyboxModel : SkyboxPtr
  deriving DecidableEq, Repr

/-- Class `OpenGLProgram` (the shadow-map program). -/
structure OpenGLProgram where
  program : Nat
  deriving DecidableEq, Repr

/-- Class `OpenGLTexture`. -/
structure OpenGLTexture where
  _textureId : Nat
  textureWidth : Int
  textureHeight : Int
  deriving DecidableEq, Repr

/-- Class `OpenGLFramebufferObject`. -/
structure OpenGLFramebufferObject where
  framebufferObjectId : Nat
  deriving DecidableEq, Repr

/-- Class `OpenGLRenderer`. -/
structure OpenGLRenderer (G : Glm) where
  openGLCamera : G.Cam
  openGLModelPrograms : List OpenGLRGBModelProgram
  openGLSkyboxProgram : OpenGLSkyboxProgram
  openGLShadowProgram : OpenGLProgram
  shadowTexture : OpenGLTexture
  shadowDepthFramebufferObject : OpenGLFramebufferObject
  _shadowMapMvpLoc : Int
  _shadowMapMvpLightLoc : Int

/-! ## `OpenGLRenderer::update` -/

/-- Body of the loop of `update` for one model. -/
def updateModel (G : Glm) (r : OpenGLRenderer G) (sc : Scene G)
    (projectionMatrix orthoMatrix : G.M) (currentModel : Model3D G) : Model3D G :=
  let _modelViewMatrix := G.mul (G.lookAtMatrix r.openGLCamera) currentModel._modelMatrix
  let _modelViewProjectionMatrix := G.mul projectionMatrix _modelViewMatrix
  let _normalMatrix := G.inverseTranspose _modelViewMatrix
  let _modelViewProjectionLightMatrix :=
    G.mul
      (G.mul orthoMatrix
        (G.lookAt sc.lightDirection (G.center r.openGLCamera)
          (G.vec3 (G.lit 0) (G.lit 1) (G.lit 0))))
      currentModel._modelMatrix
  { currentModel with
    _modelViewMatrix := _modelViewMatrix
    _modelViewProjectionMatrix := _modelViewProjectionMatrix
    _normalMatrix := _normalMatrix
    _modelViewProjectionLightMatrix := _modelViewProjectionLightMatrix }

/-- The projection matrix computed at the top of `update`. -/
def projectionMatrix (G : Glm) (sc : Scene G) (width height : G.F) : G.M :=
  let aspect := G.fabs (G.div width height)
  G.perspective (G.radians (G.lit 65)) aspect sc.nearPlane sc.farPlane

/-- The orthographic matrix computed at the top of `update`. -/
def orthoMatrix (G : Glm) : G.M :=
  G.ortho (G.lit (-10)) (G.lit 10) (G.lit (-10)) (G.lit 10) (G.lit (-20)) (G.lit 20)

/-- Method `OpenGLRenderer::update(width, height, timeSinceLastUpdate)`: the scene it leaves. -/
def update (G : Glm) (r : OpenGLRenderer G) (sc : Scene G) (width height : G.F)
    (_timeSinceLastUpdate : G.D) : Scene G :=
  let projectionMatrix := projectionMatrix G sc width height
  let orthoMatrix := orthoMatrix G
  let models := sc.models.map (updateModel G r sc projectionMatrix orthoMatrix)
  { sc with
    models := models
    skybox :=
      { sc.skybox with
        _modelViewProjectionMatrix :=
          G.mul (G.mul projectionMatrix (G.lookAtMatrix r.openGLCamera)) sc.skybox._modelMatrix } }

/-- The four matrices of a model that `update` derives. -/
def Model3D.derived {G : Glm} (m : Model3D G) : G.M × G.M × G.M × G.M :=
  (m._modelViewMatrix, m._modelViewProjectionMatrix, m._normalMatrix,
    m._modelViewProjectionLightMatrix)

/-! ## `OpenGLRenderer::start` -/

/-- Enumeration of the value kinds of a texture parameter. -/
inductive OpenGLTextureParameterType
  | Int
  | Float
  deriving DecidableEq, Repr

/-- Class `OpenGLTextureParameter`: parameter name, value kind, and the value of `intValue`. -/
structure OpenGLTextureParameter where
  parameterName : GLenum
  parameterType : OpenGLTextureParameterType
  intValue : GLenum
  deriving DecidableEq, Repr

/-- What a program loader leaves behind: its return value, the `errors` string it was
handed by reference, and the GL program handle it stored in the program object. -/
structure LoadOutcome where
  linked : Bool
  errors : String
  program : Nat
  deriving DecidableEq, Repr

/-- The collaborators of `start` that live in other files, as functions of their arguments.
A loader receives the current contents of `errors` and may leave any string in it. -/
structure Loaders where
  /-- Constant `OpenGLESConfiguration::shadersBasePath`. -/
  shadersBasePath : String
  /-- Method `OpenGLRGBModelProgram::startProgram(errors)`. -/
  startModelProgram : OpenGLRGBModelProgram → String → LoadOutcome
  /-- Method `OpenGLSkyboxProgram::startProgram(errors)`. -/
  startSkyboxProgram : OpenGLSkyboxProgram → String → LoadOutcome
  /-- Function `getFileContents(path)`. -/
  getFileContents : String → String
  /-- Method `OpenGLProgram::loadProgram(vertexSource, fragmentSource, errors)`. -/
  loadProgram : String → String → String → LoadOutcome
  /-- Function `glGetUniformLocation(program, name)`. -/
  glGetUniformLocation : Nat → String → Int
  /-- Method `OpenGLTexture::createTexture`, as the texture id it stores. -/
  createTexture :
    OpenGLTexture → List OpenGLTextureParameter → GLenum → GLenum → GLenum → Nat
  /-- Method `OpenGLFramebufferObject::attach2DTexture`, as the framebuffer id it stores. -/
  attach2DTexture : OpenGLFramebufferObject → Nat → GLenum → GLenum → Nat

/-- The program object a `deleteProgram` call is made on. -/
inductive ProgramRef
  | shadowProgram
  | skyboxProgram
  | modelProgram (i : Nat)
  deriving DecidableEq, Repr

/-- Calls that `start` and `shutdown` make into collaborators and into GL, as logged. -/
inductive RendererCall
  | startModelProgram (p : OpenGLRGBModelProgram) (out : LoadOutcome)
  | startSkyboxProgram (p : OpenGLSkyboxProgram) (out : LoadOutcome)
  | getFileContents (path : String)
  | loadProgram (vertexShader fragmentShader : String) (out : LoadOutcome)
  | glGetUniformLocation (program : Nat) (name : String)
  | createTexture (texture : OpenGLTexture) (parameters : List OpenGLTextureParameter)
      (internalFormat format type : GLenum)
  | attach2DTexture (textureId : Nat) (attachment drawBuffer : GLenum)
  | deleteProgram (target : ProgramRef) (program : Nat)
  | glDeleteBuffers (n : Int) (buffers : List (Option Nat))
  deriving DecidableEq, Repr

/-- A freshly constructed `OpenGLRGBModelProgram(shadersBasePath)`. -/
def OpenGLRGBModelProgram.new : OpenGLRGBModelProgram :=
  { program := 0, model := .null, openGLCamera := .null, shadowTexture := .null }

/-- A freshly constructed `OpenGLSkyboxProgram(shadersBasePath)`. -/
def OpenGLSkyboxProgram.new : OpenGLSkyboxProgram :=
  { program := 0, skyboxModel := .null }

/-- The program object `start` builds for the model at index `i`, before it is started. -/
def modelProgramFor (i : Nat) : OpenGLRGBModelProgram :=
  { OpenGLRGBModelProgram.new with model := .sceneModel i, openGLCamera := .rendererCamera }

/-- State carried through the model loop of `start`. -/
structure ModelLoop where
  /-- True when the loop left through `return false`. -/
  aborted : Bool
  errors : String
  programs : List OpenGLRGBModelProgram
  calls : List RendererCall
  deriving DecidableEq, Repr

/-- The loop `for (auto& currentModel : Scene::instance().models)` of `start`;
`i` is the index of the head of the remaining models. -/
def loadModelPrograms {G : Glm} (L : Loaders) :
    List (Model3D G) → Nat → ModelLoop → ModelLoop
  | [], _, s => s
  | _ :: rest, i, s =>
    let modelProgram := modelProgramFor i
    let out := L.startModelProgram modelProgram s.errors
    let programLinked := out.linked
    let errors := out.errors
    let calls := s.calls ++ [RendererCall.startModelProgram modelProgram out]
    if !programLinked || !(decide (errors = "")) then
      { aborted := true, errors := errors, programs := s.programs, calls := calls }
    else
      loadModelPrograms L rest (i + 1)
        { aborted := false
          errors := errors
          programs := s.programs ++ [{ modelProgram with program := out.program }]
          calls := calls }

/-- The parameter list handed to `shadowTexture.createTexture`. -/
def shadowTextureParameters : List OpenGLTextureParameter :=
  [ ⟨.GL_TEXTURE_MIN_FILTER, .Int, .GL_NEAREST⟩,
    ⟨.GL_TEXTURE_MAG_FILTER, .Int, .GL_NEAREST⟩,
    ⟨.GL_TEXTURE_WRAP_S, .Int, .GL_CLAMP_TO_EDGE⟩,
    ⟨.GL_TEXTURE_WRAP_T, .Int, .GL_CLAMP_TO_EDGE⟩,
    ⟨.GL_TEXTURE_COMPARE_MODE, .Int, .GL_COMPARE_REF_TO_TEXTURE⟩,
    ⟨.GL_TEXTURE_COMPARE_FUNC, .Int, .GL_LEQUAL⟩ ]

/-- What `start` leaves: its return value, the output parameter `error`, the renderer,
and the calls it made. -/
structure StartResult (G : Glm) where
  ok : Bool
  error : String
  renderer : OpenGLRenderer G
  calls : List RendererCall

/-- Method `OpenGLRenderer::start(camera, error)`; `error` is the caller's string. -/
def start (G : Glm) (L : Loaders) (sc : Scene G) (r : OpenGLRenderer G) (camera : G.Cam)
    (error : String) : StartResult G :=
  let r := { r with openGLCamera := G.setSceneCenter camera sc.sceneCenter }
  let loop := loadModelPrograms L sc.models 0
    { aborted := false, errors := "", programs := r.openGLModelPrograms, calls := [] }
  let r := { r with openGLModelPrograms := loop.programs }
  if loop.aborted then
    { ok := false, error := loop.errors, renderer := r, calls := loop.calls }
  else
    let errors := loop.errors
    let skybox := { OpenGLSkyboxProgram.new with skyboxModel := .sceneSkybox }
    let out := L.startSkyboxProgram skybox errors
    let r := { r with openGLSkyboxProgram := { skybox with program := out.program } }
    let calls := loop.calls ++ [RendererCall.startSkyboxProgram skybox out]
    let errors := out.errors
    if !out.linked then
      { ok := false, error := errors, renderer := r, calls := calls }
    else
      let vertexPath := L.shadersBasePath ++ "ShadowMapVertex.vsh"
      let fragmentPath := L.shadersBasePath ++ "ShadowMapFragment.fsh"
      let shadowMappingVertexShader := L.getFileContents vertexPath
      let shadowMappingFragmentShader := L.getFileContents fragmentPath
      let out := L.loadProgram shadowMappingVertexShader shadowMappingFragmentShader errors
      let r := { r with openGLShadowProgram := { program := out.program } }
      let calls := calls ++
        [ RendererCall.getFileContents vertexPath,
          RendererCall.getFileContents fragmentPath,
          RendererCall.loadProgram shadowMappingVertexShader shadowMappingFragmentShader out ]
      let errors := out.errors
      if !out.linked then
        { ok := false, error := errors, renderer := r, calls := calls }
      else
        let mvpLoc := L.glGetUniformLocation r.openGLShadowProgram.program "mvpMatrix"
        let mvpLightLoc := L.glGetUniformLocation r.openGLShadowProgram.program "mvpLightMatrix"
        let texture : OpenGLTexture :=
          { r.shadowTexture with textureWidth := 1024, textureHeight := 1024 }
        let textureId := L.createTexture texture shadowTextureParameters
          .GL_DEPTH_COMPONENT24 .GL_DEPTH_COMPONENT .GL_UNSIGNED_INT
        let fboId := L.attach2DTexture r.shadowDepthFramebufferObject textureId
          .GL_DEPTH_ATTACHMENT .GL_NONE
        let calls := calls ++
          [ RendererCall.glGetUniformLocation r.openGLShadowProgram.program "mvpMatrix",
            RendererCall.glGetUniformLocation r.openGLShadowProgram.program "mvpLightMatrix",
            RendererCall.createTexture texture shadowTextureParameters
              .GL_DEPTH_COMPONENT24 .GL_DEPTH_COMPONENT .GL_UNSIGNED_INT,
            RendererCall.attach2DTexture textureId .GL_DEPTH_ATTACHMENT .GL_NONE ]
        { ok := true
          error := error
          renderer :=
            { r with
              _shadowMapMvpLoc := mvpLoc
              _shadowMapMvpLightLoc := mvpLightLoc
              shadowTexture := { texture with _textureId := textureId }
              shadowDepthFramebufferObject := { framebufferObjectId := fboId } }
          calls := calls }

/-! ## `OpenGLRenderer::shutdown` -/

/-- State carried through the loop of `shutdown`: the array `vbo` (a slot is `none` until
it is written), the counter `i`, and the calls made. -/
structure ShutdownLoop where
  vbo : List (Option Nat)
  i : Nat
  calls : List RendererCall
  deriving DecidableEq, Repr

/-- The loop `for (auto& program : openGLModelPrograms)` of `shutdown`. It yields `none`
when a step has no defined behaviour: `program.model` is null or dangling, or `vbo[i]`
lies outside the array. -/
def shutdownLoop {G : Glm} (sc : Scene G) :
    List OpenGLRGBModelProgram → ShutdownLoop → Option ShutdownLoop
  | [], s => some s
  | program :: rest, s =>
    match program.model with
    | .null => none
    | .sceneModel j =>
      match sc.models[j]? with
      | none => none
      | some m =>
        if s.i < s.vbo.length then
          shutdownLoop sc rest
            { vbo := s.vbo.set s.i (some m._vboId)
              i := s.i + 1
              calls := s.calls ++
                [RendererCall.deleteProgram (.modelProgram s.i) program.program] }
        else none

/-- Method `OpenGLRenderer::shutdown()`: the calls it makes. The cast of the model count
to `int` is taken as exact. -/
def shutdown (G : Glm) (sc : Scene G) (r : OpenGLRenderer G) : Option (List RendererCall) :=
  let calls := [RendererCall.deleteProgram .shadowProgram r.openGLShadowProgram.program]
  let vbo : List (Option Nat) := List.replicate sc.models.length none
  match shutdownLoop sc r.openGLModelPrograms { vbo := vbo, i := 0, calls := calls } with
  | none => none
  | some s => some (s.calls ++ [RendererCall.glDeleteBuffers (sc.models.length : Int) s.vbo])

/-! ## The GL context seen by `OpenGLRenderer::draw` -/

/-- The part of the GL context state that `draw` reads or sets directly. -/
structure GLState where
  /-- Value of `GL_VIEWPORT`: x, y, width, height. -/
  viewport : Int × Int × Int × Int
  /-- Value of `GL_FRAMEBUFFER_BINDING`. -/
  framebufferBinding : Nat
  /-- Value of `GL_CURRENT_PROGRAM`. -/
  currentProgram : Nat
  /-- Value of `GL_ARRAY_BUFFER_BINDING`. -/
  arrayBufferBinding : Nat
  cullFace : Bool
  depthTest : Bool
  polygonOffsetFill : Bool
  /-- Value of `GL_COLOR_WRITEMASK`: red, green, blue, alpha. -/
  colorMask : Bool × Bool × Bool × Bool
  deriving DecidableEq, Repr

/-- Calls issued by `draw`: GL commands, and the `draw` methods of the skybox program and
of a model program. -/
inductive GLCall (G : Glm)
  | glGetIntegerv (pname : GLenum)
  | glUseProgram (program : Nat)
  | glBindFramebuffer (target : GLenum) (framebuffer : Nat)
  | glViewport (x y width height : Int)
  | glEnable (cap : GLenum)
  | glClear (mask : GLenum)
  | glColorMask (red green blue alpha : Bool)
  | glPolygonOffset (factor units : G.F)
  | glBindBuffer (target : GLenum) (buffer : Nat)
  | glEnableVertexAttribArray (index : Nat)
  | glVertexAttribPointer (index : Nat) (size : Nat) (type : GLenum) (normalized : Bool)
      (stride : Int) (pointer : Nat)
  | glUniformMatrix4fv (location : Int) (count : Int) (transpose : Bool) (value : G.M)
  | glDrawArrays (mode : GLenum) (first count : Int)
  | glDisableVertexAttribArray (index : Nat)
  | skyboxProgramDraw (p : OpenGLSkyboxProgram)
  | modelProgramDraw (p : OpenGLRGBModelProgram)

/-- Whether a call is `glDrawArrays`. -/
def GLCall.isDrawArrays {G : Glm} : GLCall G → Bool
  | .glDrawArrays _ _ _ => true
  | _ => false

/-- Whether a call is `glColorMask`. -/
def GLCall.isColorMask {G : Glm} : GLCall G → Bool
  | .glColorMask _ _ _ _ => true
  | _ => false

/-- Whether a call is the `draw` method of the skybox program or of a model program. -/
def GLCall.isProgramDraw {G : Glm} : GLCall G → Bool
  | .skyboxProgramDraw _ => true
  | .modelProgramDraw _ => true
  | _ => false

/-- The `draw` methods of the program classes, which live in other files, as their effect
on the GL context state. -/
structure ProgramDraws where
  /-- Method `OpenGLSkyboxProgram::draw()`. -/
  skyboxDraw : OpenGLSkyboxProgram → GLState → GLState
  /-- Method `OpenGLRGBModelProgram::draw()`. -/
  modelDraw : OpenGLRGBModelProgram → GLState → GLState

/-- Effect of `glEnable(cap)`. -/
def GLState.enable (σ : GLState) : GLenum → GLState
  | .GL_CULL_FACE => { σ with cullFace := true }
  | .GL_DEPTH_TEST => { σ with depthTest := true }
  | .GL_POLYGON_OFFSET_FILL => { σ with polygonOffsetFill := true }
  | _ => σ

/-- Effect of one call on the GL context state. `glViewport` with a negative width or
height raises `GL_INVALID_VALUE` and changes nothing; the commands that only touch state
outside `GLState` (clears, vertex attributes, uniforms, rasterisation) leave it as it is. -/
def GLState.apply {G : Glm} (E : ProgramDraws) (σ : GLState) : GLCall G → GLState
  | .glUseProgram program => { σ with currentProgram := program }
  | .glBindFramebuffer _ framebuffer => { σ with framebufferBinding := framebuffer }
  | .glViewport x y width height =>
    if width < 0 ∨ height < 0 then σ else { σ with viewport := (x, y, width, height) }
  | .glEnable cap => σ.enable cap
  | .glColorMask red green blue alpha => { σ with colorMask := (red, green, blue, alpha) }
  | .glBindBuffer _ buffer => { σ with arrayBufferBinding := buffer }
  | .skyboxProgramDraw p => E.skyboxDraw p σ
  | .modelProgramDraw p => E.modelDraw p σ
  | _ => σ

/-- A GL context: its current state and the calls received so far, each with the state
that was in force when it was issued. -/
structure GLContext (G : Glm) where
  state : GLState
  trace : List (GLState × GLCall G)

/-- A context in state `σ` that has received no call yet. -/
def GLContext.fresh (G : Glm) (σ : GLState) : GLContext G :=
  { state := σ, trace := [] }

/-- Issue one call. -/
def GLContext.call {G : Glm} (E : ProgramDraws) (k : GLContext G) (c : GLCall G) :
    GLContext G :=
  { state := k.state.apply E c, trace := k.trace ++ [(k.state, c)] }

/-- Issue a sequence of calls, in order. -/
def GLContext.calls {G : Glm} (E : ProgramDraws) (k : GLContext G) (cs : List (GLCall G)) :
    GLContext G :=
  cs.foldl (GLContext.call E) k

/-! ## `OpenGLRenderer::draw` -/

/-- Size of a `GLfloat` in bytes. -/
def sizeofGLfloat : Nat := 4

/-- Body of the shadow-pass loop of `draw` for one model. -/
def shadowPassModel (G : Glm) (r : OpenGLRenderer G) (currentModel : Model3D G) :
    List (GLCall G) :=
  [ .glBindBuffer .GL_ARRAY_BUFFER currentModel._vboId,
    .glEnableVertexAttribArray G.VERTEX_POS_INDX,
    .glEnableVertexAttribArray G.VERTEX_NORMAL_INDX,
    .glVertexAttribPointer G.VERTEX_POS_INDX G.VERTEX_POS_SIZE .GL_FLOAT false
      currentModel.stride 0,
    .glVertexAttribPointer G.VERTEX_NORMAL_INDX G.VERTEX_NORMAL_SIZE .GL_FLOAT false
      currentModel.stride (G.VERTEX_POS_SIZE * sizeofGLfloat),
    .glUniformMatrix4fv r._shadowMapMvpLightLoc 1 false
      currentModel._modelViewProjectionLightMatrix,
    .glDrawArrays .GL_TRIANGLES 0 currentModel.numberOfVerticesToDraw,
    .glDisableVertexAttribArray G.VERTEX_POS_INDX,
    .glDisableVertexAttribArray G.VERTEX_NORMAL_INDX,
    .glBindBuffer .GL_ARRAY_BUFFER 0 ]

/-- Body of the colour-pass loop of `draw` for one model program: the programs already
visited and the context are carried along. -/
def colourPassProgram {G : Glm} (E : ProgramDraws)
    (acc : List OpenGLRGBModelProgram × GLContext G) (modelProgram : OpenGLRGBModelProgram) :
    List OpenGLRGBModelProgram × GLContext G :=
  let modelProgram := { modelProgram with shadowTexture := TexturePtr.rendererShadowTexture }
  (acc.1 ++ [modelProgram], acc.2.call E (.modelProgramDraw modelProgram))

/-- Method `OpenGLRenderer::draw()`, run on the GL context `k`: the renderer and the
context it leaves. -/
def draw (G : Glm) (E : ProgramDraws) (sc : Scene G) (r : OpenGLRenderer G)
    (k : GLContext G) : OpenGLRenderer G × GLContext G :=
  let m_viewport := k.state.viewport
  let k := k.call E (.glGetIntegerv .GL_VIEWPORT)
  let defaultFramebuffer : Int := (k.state.framebufferBinding : Int)
  let k := k.call E (.glGetIntegerv .GL_FRAMEBUFFER_BINDING)
  let k := k.calls E
    [ .glUseProgram r.openGLShadowProgram.program,
      .glBindFramebuffer .GL_FRAMEBUFFER r.shadowDepthFramebufferObject.framebufferObjectId,
      .glViewport 0 0 r.shadowTexture.textureWidth r.shadowTexture.textureHeight,
      .glEnable .GL_CULL_FACE,
      .glEnable .GL_DEPTH_TEST,
      .glEnable .GL_POLYGON_OFFSET_FILL,
      .glClear .GL_DEPTH_BUFFER_BIT,
      .glColorMask false false false false,
      .glPolygonOffset (G.lit 5) (G.lit 100) ]
  let k := sc.models.foldl (fun k currentModel => k.calls E (shadowPassModel G r currentModel)) k
  let k := k.calls E
    [ .glBindFramebuffer .GL_FRAMEBUFFER defaultFramebuffer.toNat,
      .glViewport 0 0 m_viewport.2.2.1 m_viewport.2.2.2 ]
  let k := k.call E (.skyboxProgramDraw r.openGLSkyboxProgram)
  let out := r.openGLModelPrograms.foldl (colourPassProgram E) ([], k)
  ({ r with openGLModelPrograms := out.1 }, out.2)

/-! ## Replaying call sequences -/

/-- The state a sequence of calls leaves. -/
def GLState.run {G : Glm} (E : ProgramDraws) (σ : GLState) (cs : List (GLCall G)) : GLState :=
  cs.foldl (GLState.apply E) σ

/-- A sequence of calls, each paired with the state in force when it is issued. -/
def stamp {G : Glm} (E : ProgramDraws) : GLState → List (GLCall G) → List (GLState × GLCall G)
  | _, [] => []
  | σ, c :: cs => (σ, c) :: stamp E (σ.apply E c) cs

/-- The capabilities and the colour write mask of a GL state. -/
def GLState.raster (σ : GLState) : Bool × Bool × Bool × (Bool × Bool × Bool × Bool) :=
  (σ.cullFace, σ.depthTest, σ.polygonOffsetFill, σ.colorMask)

/-- The pointer assignment made by the colour pass before a model program is drawn. -/
def withShadowTexture (p : OpenGLRGBModelProgram) : OpenGLRGBModelProgram :=
  { p with shadowTexture := TexturePtr.rendererShadowTexture }

/-- Whether a logged call is a load attempt that reported failure to `start`: a model
program that came back not linked or with a non-empty `errors`, a skybox or shadow
program that came back not linked. -/
def RendererCall.reportsFailure : RendererCall → Bool
  | .startModelProgram _ out => !out.linked || !(decide (out.errors = ""))
  | .startSkyboxProgram _ out => !out.linked
  | .loadProgram _ _ out => !out.linked
  | _ => false

/-- The outcome logged with a load attempt. -/
def RendererCall.outcome : RendererCall → Option LoadOutcome
  | .startModelProgram _ out => some out
  | .startSkyboxProgram _ out => some out
  | .loadProgram _ _ out => some out
  | _ => none

/-- Whether a logged call is `createTexture`. -/
def RendererCall.isCreateTexture : RendererCall → Bool
  | .createTexture _ _ _ _ _ => true
  | _ => false

/-- Whether a logged call is the start of a model program. -/
def RendererCall.isStartModelProgram : RendererCall → Bool
  | .startModelProgram _ _ => true
  | _ => false

/-! ## A concrete instance: symbolic arithmetic -/

/-- Symbolic values: every library operation builds the term that names its result. -/
inductive Term
  | atom (n : Nat)
  | lit (z : Int)
  | div (a b : Term)
  | fabs (a : Term)
  | radians (a : Term)
  | vec3 (x y z : Term)
  | perspective (fovy aspect near far : Term)
  | ortho (left right bottom top near far : Term)
  | lookAt (eye center up : Term)
  | mul (a b : Term)
  | inverseTranspose (a : Term)
  deriving DecidableEq, Repr

/-- A camera given by eye, centre and up vector. -/
structure TermCamera where
  eye : Term
  center : Term
  up : Term
  deriving DecidableEq, Repr

/-- The symbolic instance of the numeric interface. -/
def termGlm : Glm where
  F := Term
  D := Term
  V := Term
  M := Term
  Cam := TermCamera
  lit := Term.lit
  div := Term.div
  fabs := Term.fabs
  radians := Term.radians
  vec3 := Term.vec3
  perspective := Term.perspective
  ortho := Term.ortho
  lookAt := Term.lookAt
  mul := Term.mul
  inverseTranspose := Term.inverseTranspose
  center := TermCamera.center
  lookAtMatrix := fun c => Term.lookAt c.eye c.center c.up
  setSceneCenter := fun c v => { c with center := v }
  VERTEX_POS_INDX := 0
  VERTEX_NORMAL_INDX := 1
  VERTEX_POS_SIZE := 3
  VERTEX_NORMAL_SIZE := 3

/-- A sample model with vertex buffer `vbo` and model matrix `atom n`; its derived
matrices hold stale values. -/
def sampleModel (vbo : Nat) (n : Nat) : Model3D termGlm :=
  { _vboId := vbo
    stride := 24
    numberOfVerticesToDraw := 36
    _modelMatrix := Term.atom n
    _modelViewMatrix := Term.atom 100
    _modelViewProjectionMatrix := Term.atom 101
    _normalMatrix := Term.atom 102
    _modelViewProjectionLightMatrix := Term.atom 103 }

/-- A sample scene with the given models. -/
def sampleScene (models : List (Model3D termGlm)) : Scene termGlm :=
  { models := models
    skybox := { _vboId := 9, _modelMatrix := Term.atom 50, _modelViewProjectionMatrix := Term.atom 51 }
    sceneCenter := Term.atom 60
    nearPlane := Term.atom 61
    farPlane := Term.atom 62
    lightDirection := Term.atom 63 }

/-- A sample scene with two models. -/
def scene2 : Scene termGlm := sampleScene [sampleModel 11 1, sampleModel 12 2]

/-- A sample camera. -/
def sampleCamera : TermCamera := { eye := Term.atom 70, center := Term.atom 71, up := Term.atom 72 }

/-- A renderer on which `start` has not run yet, holding the given model programs. -/
def sampleRenderer (programs : List OpenGLRGBModelProgram) : OpenGLRenderer termGlm :=
  { openGLCamera := sampleCamera
    openGLModelPrograms := programs
    openGLSkyboxProgram := OpenGLSkyboxProgram.new
    openGLShadowProgram := { program := 0 }
    shadowTexture := { _textureId := 0, textureWidth := 0, textureHeight := 0 }
    shadowDepthFramebufferObject := { framebufferObjectId := 0 }
    _shadowMapMvpLoc := 0
    _shadowMapMvpLightLoc := 0 }

/-- Loaders whose model, skybox and shadow loads have the given outcomes; the model
outcome may depend on the index of the model. -/
def sampleLoaders (model : Nat → LoadOutcome) (skybox shadow : LoadOutcome) : Loaders :=
  { shadersBasePath := "shaders/"
    startModelProgram := fun p _ =>
      match p.model with
      | .sceneModel i => model i
      | .null => model 0
    startSkyboxProgram := fun _ _ => skybox
    getFileContents := fun path => path
    loadProgram := fun _ _ _ => shadow
    glGetUniformLocation := fun _ _ => 3
    createTexture := fun _ _ _ _ _ => 7
    attach2DTexture := fun _ _ _ _ => 8 }

/-- A load that succeeds and stores handle `h`. -/
def loadOk (h : Nat) : LoadOutcome := { linked := true, errors := "", program := h }

/-- A load that fails and leaves no message. -/
def loadFailSilent : LoadOutcome := { linked := false, errors := "", program := 0 }

/-- A load that fails with a message. -/
def loadFailMessage : LoadOutcome := { linked := false, errors := "compile error", program := 0 }

/-- Loaders that always succeed. -/
def loadersOk : Loaders := sampleLoaders (fun i => loadOk (20 + i)) (loadOk 30) (loadOk 31)

/-- Program `draw` methods that leave the GL state as it is. -/
def drawsNeutral : ProgramDraws := { skyboxDraw := fun _ σ => σ, modelDraw := fun _ σ => σ }

/-- A GL state with viewport `(5, 7, 800, 600)` and framebuffer 2 bound, colour writes on. -/
def sampleState : GLState :=
  { viewport := (5, 7, 800, 600)
    framebufferBinding := 2
    currentProgram := 0
    arrayBufferBinding := 0
    cullFace := false
    depthTest := false
    polygonOffsetFill := false
    colorMask := (true, true, true, true) }

/-- The value `program.model->_vboId` read by `shutdown`, when the pointer is valid. -/
def vboOf {G : Glm} (sc : Scene G) (p : OpenGLRGBModelProgram) : Option Nat :=
  match p.model with
  | .null => none
  | .sceneModel j => (sc.models[j]?).map (fun m => m._vboId)

/-- Whether a logged call is `glDeleteBuffers`. -/
def RendererCall.isDeleteBuffers : RendererCall → Bool
  | .glDeleteBuffers _ _ => true
  | _ => false

/-- The first calls of `draw`: it reads viewport and framebuffer binding, selects the
shadow program and binds the shadow depth framebuffer. -/
def shadowEnter (G : Glm) (r : OpenGLRenderer G) : List (GLCall G) :=
  [ .glGetIntegerv .GL_VIEWPORT,
    .glGetIntegerv .GL_FRAMEBUFFER_BINDING,
    .glUseProgram r.openGLShadowProgram.program,
    .glBindFramebuffer .GL_FRAMEBUFFER r.shadowDepthFramebufferObject.framebufferObjectId ]

/-- The next calls of `draw`, up to the clear of the depth buffer. -/
def shadowState (G : Glm) (r : OpenGLRenderer G) : List (GLCall G) :=
  [ .glViewport 0 0 r.shadowTexture.textureWidth r.shadowTexture.textureHeight,
    .glEnable .GL_CULL_FACE,
    .glEnable .GL_DEPTH_TEST,
    .glEnable .GL_POLYGON_OFFSET_FILL,
    .glClear .GL_DEPTH_BUFFER_BIT ]

/-- The calls of `draw` from `glPolygonOffset` to the end of the shadow-pass loop. -/
def shadowModels (G : Glm) (sc : Scene G) (r : OpenGLRenderer G) : List (GLCall G) :=
  GLCall.glPolygonOffset (G.lit 5) (G.lit 100) :: sc.models.flatMap (shadowPassModel G r)

/-- The calls of `draw` up to the end of the shadow-pass loop. -/
def shadowPassCalls (G : Glm) (sc : Scene G) (r : OpenGLRenderer G) : List (GLCall G) :=
  shadowEnter G r ++ (shadowState G r
    ++ (GLCall.glColorMask false false false false :: shadowModels G sc r))

/-- The first two calls of the colour pass, for a `draw` entered in state `σ`. -/
def colourEnter (G : Glm) (σ : GLState) : List (GLCall G) :=
  [ .glBindFramebuffer .GL_FRAMEBUFFER σ.framebufferBinding,
    .glViewport 0 0 σ.viewport.2.2.1 σ.viewport.2.2.2 ]

/-- The model-program draws of the colour pass. -/
def colourModels (G : Glm) (r : OpenGLRenderer G) : List (GLCall G) :=
  r.openGLModelPrograms.map (fun p => GLCall.modelProgramDraw (withShadowTexture p))

/-- The calls of `draw` after the shadow-pass loop, for a `draw` entered in state `σ`. -/
def colourPassCalls (G : Glm) (r : OpenGLRenderer G) (σ : GLState) : List (GLCall G) :=
  colourEnter G σ ++ (GLCall.skyboxProgramDraw r.openGLSkyboxProgram :: colourModels G r)

/-- Calls that leave the framebuffer binding as it is. -/
def GLCall.keepsFramebuffer {G : Glm} : GLCall G → Bool
  | .glBindFramebuffer _ _ => false
  | .skyboxProgramDraw _ => false
  | .modelProgramDraw _ => false
  | _ => true

/-- Calls that leave the capabilities and the colour write mask as they are. -/
def GLCall.keepsRaster {G : Glm} : GLCall G → Bool
  | .glEnable _ => false
  | .glColorMask _ _ _ _ => false
  | .skyboxProgramDraw _ => false
  | .modelProgramDraw _ => false
  | _ => true

/-! ## Theorems: `update` -/

theorem update_models_length (G : Glm) (r : OpenGLRenderer G) (sc : Scene G)
    (width height : G.F) (t : G.D) :
    (update G r sc width height t).models.length = sc.models.length := by
  simp [update]

theorem update_models_modelMatrix (G : Glm) (r : OpenGLRenderer G) (sc : Scene G)
    (width height : G.F) (t : G.D) :
    (update G r sc width height t).models.map (fun m => m._modelMatrix)
      = sc.models.map (fun m => m._modelMatrix) := by
  simp [update, updateModel, Function.comp_def]

theorem update_models_derived (G : Glm) (r : OpenGLRenderer G) (sc : Scene G)
    (width height : G.F) (t : G.D) :
    (update G r sc width height t).models.map Model3D.derived
      = (sc.models.map (fun m => m._modelMatrix)).map (fun M =>
          (G.mul (G.lookAtMatrix r.openGLCamera) M,
            G.mul (projectionMatrix G sc width height) (G.mul (G.lookAtMatrix r.openGLCamera) M),
            G.inverseTranspose (G.mul (G.lookAtMatrix r.openGLCamera) M),
            G.mul (G.mul (orthoMatrix G)
              (G.lookAt sc.lightDirection (G.center r.openGLCamera)
                (G.vec3 (G.lit 0) (G.lit 1) (G.lit 0)))) M)) := by
  simp [update, updateModel, Model3D.derived, Function.comp_def]

theorem update_idempotent (G : Glm) (r : OpenGLRenderer G) (sc : Scene G)
    (width height : G.F) (t1 t2 : G.D) :
    update G r (update G r sc width height t1) width height t2
      = update G r sc width height t1 := by
  simp [update, updateModel, projectionMatrix, Function.comp_def]

/-- C6: `update` is a deterministic full overwrite. Two runs with the same width and height
on scenes that agree on near and far plane, light direction, model matrices and skybox
model matrix, with the same camera, leave the same derived matrices in every model and in
the skybox, whatever the derived matrices held before and whatever the elapsed-time
arguments are; and running `update` a second time changes nothing. -/
theorem update_deterministic_overwrite (G : Glm) (r1 r2 : OpenGLRenderer G)
    (sc1 sc2 : Scene G) (width height : G.F) (t1 t2 : G.D)
    (hcam : r1.openGLCamera = r2.openGLCamera)
    (hnear : sc1.nearPlane = sc2.nearPlane)
    (hfar : sc1.farPlane = sc2.farPlane)
    (hlight : sc1.lightDirection = sc2.lightDirection)
    (hmodels : sc1.models.map (fun m => m._modelMatrix)
      = sc2.models.map (fun m => m._modelMatrix))
    (hsky : sc1.skybox._modelMatrix = sc2.skybox._modelMatrix) :
    (update G r1 sc1 width height t1).models.map Model3D.derived
        = (update G r2 sc2 width height t2).models.map Model3D.derived
      ∧ (update G r1 sc1 width height t1).skybox._modelViewProjectionMatrix
        = (update G r2 sc2 width height t2).skybox._modelViewProjectionMatrix
      ∧ update G r1 (update G r1 sc1 width height t1) width height t2
        = update G r1 sc1 width height t1 := by
  refine ⟨?_, ?_, update_idempotent G r1 sc1 width height t1 t2⟩
  · rw [update_models_derived, update_models_derived, hmodels, hcam, hlight]
    simp [projectionMatrix, hnear, hfar]
  · simp [update, projectionMatrix, hcam, hnear, hfar, hsky]

/-- C6 at a concrete input: two scenes with the same model matrices but different stale
derived matrices, updated with different elapsed times. -/
theorem update_deterministic_overwrite_witness :
    (update termGlm (sampleRenderer []) scene2 (Term.atom 80) (Term.atom 81)
          (Term.atom 0)).models.map Model3D.derived
        = (update termGlm (sampleRenderer [])
            (update termGlm (sampleRenderer []) scene2 (Term.atom 1) (Term.atom 2) (Term.atom 3))
            (Term.atom 80) (Term.atom 81) (Term.atom 4)).models.map Model3D.derived
      ∧ (update termGlm (sampleRenderer []) scene2 (Term.atom 80) (Term.atom 81)
          (Term.atom 0)).skybox._modelViewProjectionMatrix
        = (update termGlm (sampleRenderer [])
            (update termGlm (sampleRenderer []) scene2 (Term.atom 1) (Term.atom 2) (Term.atom 3))
            (Term.atom 80) (Term.atom 81) (Term.atom 4)).skybox._modelViewProjectionMatrix
      ∧ update termGlm (sampleRenderer [])
          (update termGlm (sampleRenderer []) scene2 (Term.atom 80) (Term.atom 81) (Term.atom 0))
          (Term.atom 80) (Term.atom 81) (Term.atom 4)
        = update termGlm (sampleRenderer []) scene2 (Term.atom 80) (Term.atom 81) (Term.atom 0) :=
  update_deterministic_overwrite termGlm (sampleRenderer []) (sampleRenderer []) scene2
    (update termGlm (sampleRenderer []) scene2 (Term.atom 1) (Term.atom 2) (Term.atom 3))
    (Term.atom 80) (Term.atom 81) (Term.atom 0) (Term.atom 4) rfl rfl rfl rfl rfl rfl

/-- C7: after `update(width, height, t)`, with `V = camera.lookAtMatrix()` and
`P = perspective(radians(65), fabs(width / height), nearPlane, farPlane)`, for every scene
(also one without models) the skybox holds
`_modelViewProjectionMatrix = P * V * (skybox model matrix)`, and the skybox model matrix,
the model matrices and the number of models are unchanged; and the model at every index `i`
keeps its model matrix `M` and holds `_modelViewMatrix = V * M`,
`_modelViewProjectionMatrix = P * (V * M)`, `_normalMatrix = inverseTranspose(V * M)` and
`_modelViewProjectionLightMatrix = ortho(-10, 10, -10, 10, -20, 20) *
lookAt(lightDirection, camera.center, (0, 1, 0)) * M`. -/
theorem update_matrix_formulas (G : Glm) (r : OpenGLRenderer G) (sc : Scene G)
    (width height : G.F) (t : G.D) :
    (update G r sc width height t).skybox._modelViewProjectionMatrix
        = G.mul
            (G.mul
              (G.perspective (G.radians (G.lit 65)) (G.fabs (G.div width height))
                sc.nearPlane sc.farPlane)
              (G.lookAtMatrix r.openGLCamera))
            sc.skybox._modelMatrix
      ∧ (update G r sc width height t).skybox._modelMatrix = sc.skybox._modelMatrix
      ∧ (update G r sc width height t).models.map (fun m => m._modelMatrix)
        = sc.models.map (fun m => m._modelMatrix)
      ∧ (update G r sc width height t).models.length = sc.models.length
      ∧ ∀ (i : Nat) (m : Model3D G), sc.models[i]? = some m →
          ∃ m2 : Model3D G, (update G r sc width height t).models[i]? = some m2
            ∧ m2._modelMatrix = m._modelMatrix
            ∧ m2._modelViewMatrix = G.mul (G.lookAtMatrix r.openGLCamera) m._modelMatrix
            ∧ m2._modelViewProjectionMatrix
              = G.mul
                  (G.perspective (G.radians (G.lit 65)) (G.fabs (G.div width height))
                    sc.nearPlane sc.farPlane)
                  (G.mul (G.lookAtMatrix r.openGLCamera) m._modelMatrix)
            ∧ m2._normalMatrix
              = G.inverseTranspose (G.mul (G.lookAtMatrix r.openGLCamera) m._modelMatrix)
            ∧ m2._modelViewProjectionLightMatrix
              = G.mul
                  (G.mul
                    (G.ortho (G.lit (-10)) (G.lit 10) (G.lit (-10)) (G.lit 10) (G.lit (-20))
                      (G.lit 20))
                    (G.lookAt sc.lightDirection (G.center r.openGLCamera)
                      (G.vec3 (G.lit 0) (G.lit 1) (G.lit 0))))
                  m._modelMatrix := by
  refine ⟨?_, ?_, update_models_modelMatrix G r sc width height t,
    update_models_length G r sc width height t, ?_⟩
  · simp [update, projectionMatrix]
  · simp [update]
  · intro i m hm
    refine ⟨updateModel G r sc (projectionMatrix G sc width height) (orthoMatrix G) m, ?_, ?_⟩
    · simp [update, hm]
    · simp [updateModel, projectionMatrix, orthoMatrix]

/-- C7 at concrete inputs: the skybox of a scene without models, and the second model of
the two-model sample scene, whose stale matrices are all overwritten. -/
theorem update_matrix_formulas_witness :
    (update termGlm (sampleRenderer []) (sampleScene []) (Term.atom 80) (Term.atom 81)
          (Term.atom 0)).skybox._modelViewProjectionMatrix
        = Term.mul
            (Term.mul
              (Term.perspective (Term.radians (Term.lit 65))
                (Term.fabs (Term.div (Term.atom 80) (Term.atom 81))) (Term.atom 61)
                (Term.atom 62))
              (Term.lookAt (Term.atom 70) (Term.atom 71) (Term.atom 72)))
            (Term.atom 50)
      ∧ scene2.models[1]? = some (sampleModel 12 2)
      ∧ ∃ m2 : Model3D termGlm,
          (update termGlm (sampleRenderer []) scene2 (Term.atom 80) (Term.atom 81)
            (Term.atom 0)).models[1]? = some m2
            ∧ m2._modelMatrix = Term.atom 2
            ∧ m2._modelViewMatrix
              = Term.mul (Term.lookAt (Term.atom 70) (Term.atom 71) (Term.atom 72)) (Term.atom 2)
            ∧ m2._modelViewProjectionMatrix
              = Term.mul
                  (Term.perspective (Term.radians (Term.lit 65))
                    (Term.fabs (Term.div (Term.atom 80) (Term.atom 81))) (Term.atom 61)
                    (Term.atom 62))
                  (Term.mul (Term.lookAt (Term.atom 70) (Term.atom 71) (Term.atom 72))
                    (Term.atom 2))
            ∧ m2._normalMatrix
              = Term.inverseTranspose
                  (Term.mul (Term.lookAt (Term.atom 70) (Term.atom 71) (Term.atom 72))
                    (Term.atom 2))
            ∧ m2._modelViewProjectionLightMatrix
              = Term.mul
                  (Term.mul
                    (Term.ortho (Term.lit (-10)) (Term.lit 10) (Term.lit (-10)) (Term.lit 10)
                      (Term.lit (-20)) (Term.lit 20))
                    (Term.lookAt (Term.atom 63) (Term.atom 71)
                      (Term.vec3 (Term.lit 0) (Term.lit 1) (Term.lit 0))))
                  (Term.atom 2) :=
  ⟨(update_matrix_formulas termGlm (sampleRenderer []) (sampleScene []) (Term.atom 80)
      (Term.atom 81) (Term.atom 0)).1,
    rfl,
    (update_matrix_formulas termGlm (sampleRenderer []) scene2 (Term.atom 80) (Term.atom 81)
      (Term.atom 0)).2.2.2.2 1 (sampleModel 12 2) rfl⟩

/-! ## Theorems: the model loop of `start` -/

/-- The model loop only appends model-program starts to the log, and a start that reports
failure ends the loop with the `errors` string that start left. -/
theorem loadModelPrograms_calls {G : Glm} (L : Loaders) (ms : List (Model3D G)) :
    ∀ (i : Nat) (s : ModelLoop), ∃ cs : List RendererCall,
      (loadModelPrograms L ms i s).calls = s.calls ++ cs
        ∧ (∀ c ∈ cs, c.isStartModelProgram = true)
        ∧ (∀ c ∈ cs, c.reportsFailure = true →
            (loadModelPrograms L ms i s).aborted = true
              ∧ ∃ out, c.outcome = some out ∧ (loadModelPrograms L ms i s).errors = out.errors) := by
  induction ms with
  | nil => intro i s; exact ⟨[], by simp [loadModelPrograms]⟩
  | cons m rest ih =>
    intro i s
    by_cases hfail :
        (!(L.startModelProgram (modelProgramFor i) s.errors).linked
          || !(decide ((L.startModelProgram (modelProgramFor i) s.errors).errors = ""))) = true
    · refine ⟨[RendererCall.startModelProgram (modelProgramFor i)
          (L.startModelProgram (modelProgramFor i) s.errors)], ?_, ?_, ?_⟩
      · simp [loadModelPrograms, hfail]
      · simp [RendererCall.isStartModelProgram]
      · intro c hc _
        simp only [List.mem_singleton] at hc
        subst hc
        simp [loadModelPrograms, hfail, RendererCall.outcome]
    · obtain ⟨cs, h1, h2, h3⟩ := ih (i + 1)
        { aborted := false
          errors := (L.startModelProgram (modelProgramFor i) s.errors).errors
          programs := s.programs ++
            [{ modelProgramFor i with
                program := (L.startModelProgram (modelProgramFor i) s.errors).program }]
          calls := s.calls ++ [RendererCall.startModelProgram (modelProgramFor i)
            (L.startModelProgram (modelProgramFor i) s.errors)] }
      refine ⟨RendererCall.startModelProgram (modelProgramFor i)
          (L.startModelProgram (modelProgramFor i) s.errors) :: cs, ?_, ?_, ?_⟩
      · simp only [loadModelPrograms, hfail]
        simpa using h1
      · intro c hc
        rcases List.mem_cons.mp hc with hc | hc
        · subst hc; simp [RendererCall.isStartModelProgram]
        · exact h2 c hc
      · intro c hc hrep
        rcases List.mem_cons.mp hc with hc | hc
        · subst hc
          exact absurd hrep hfail
        · simp only [loadModelPrograms, hfail]
          simpa using h3 c hc hrep

/-- A model loop that runs to its end appends one program per model, bound to the models
in scene order and to the renderer's camera. -/
theorem loadModelPrograms_programs {G : Glm} (L : Loaders) (ms : List (Model3D G)) :
    ∀ (i : Nat) (s : ModelLoop), (loadModelPrograms L ms i s).aborted = false →
      ∃ new : List OpenGLRGBModelProgram,
        (loadModelPrograms L ms i s).programs = s.programs ++ new
          ∧ new.length = ms.length
          ∧ ∀ (j : Nat) (p : OpenGLRGBModelProgram), new[j]? = some p →
              p.model = ModelPtr.sceneModel (i + j)
                ∧ p.openGLCamera = CameraPtr.rendererCamera := by
  induction ms with
  | nil => intro i s _; exact ⟨[], by simp [loadModelPrograms]⟩
  | cons m rest ih =>
    intro i s hrun
    by_cases hfail :
        (!(L.startModelProgram (modelProgramFor i) s.errors).linked
          || !(decide ((L.startModelProgram (modelProgramFor i) s.errors).errors = ""))) = true
    · simp [loadModelPrograms, hfail] at hrun
    · simp only [loadModelPrograms, hfail] at hrun ⊢
      obtain ⟨new, h1, h2, h3⟩ := ih (i + 1) _ hrun
      refine ⟨{ modelProgramFor i with
          program := (L.startModelProgram (modelProgramFor i) s.errors).program } :: new,
        ?_, ?_, ?_⟩
      · simpa using h1
      · simp [h2]
      · intro j p hj
        cases j with
        | zero =>
          simp only [List.getElem?_cons_zero, Option.some.injEq] at hj
          subst hj
          simp [modelProgramFor]
        | succ j =>
          simp only [List.getElem?_cons_succ] at hj
          have := h3 j p hj
          simpa [Nat.add_assoc, Nat.add_comm 1 j] using this

/-- A model loop entered with `errors` empty whose first `k` starts succeed and whose next
start fails stops there: it keeps the `k` programs, logs `k + 1` starts and holds the
`errors` string of the failed start. -/
theorem loadModelPrograms_abort {G : Glm} (L : Loaders) (ms : List (Model3D G)) :
    ∀ (k i : Nat) (s : ModelLoop), s.errors = "" → k < ms.length →
      (∀ j, j < k → (L.startModelProgram (modelProgramFor (i + j)) "").linked = true
        ∧ (L.startModelProgram (modelProgramFor (i + j)) "").errors = "") →
      ((L.startModelProgram (modelProgramFor (i + k)) "").linked = false
        ∨ (L.startModelProgram (modelProgramFor (i + k)) "").errors ≠ "") →
      loadModelPrograms L ms i s =
        { aborted := true
          errors := (L.startModelProgram (modelProgramFor (i + k)) "").errors
          programs := s.programs ++ (List.range' i k).map (fun j =>
            { modelProgramFor j with
              program := (L.startModelProgram (modelProgramFor j) "").program })
          calls := s.calls ++ (List.range' i (k + 1)).map (fun j =>
            RendererCall.startModelProgram (modelProgramFor j)
              (L.startModelProgram (modelProgramFor j) "")) } := by
  induction ms with
  | nil => intro k i s _ hk; simp at hk
  | cons m rest ih =>
    intro k i s hs hk hok hbad
    cases k with
    | zero =>
      have hfail : (!(L.startModelProgram (modelProgramFor i) "").linked
          || !(decide ((L.startModelProgram (modelProgramFor i) "").errors = ""))) = true := by
        rcases hbad with h | h
        · simp at h; simp [h]
        · simp at h; simp [h]
      simp [loadModelPrograms, hs, hfail]
    | succ k =>
      have h0 := hok 0 (Nat.succ_pos k)
      simp only [Nat.add_zero] at h0
      have hfail : ¬ ((!(L.startModelProgram (modelProgramFor i) "").linked
          || !(decide ((L.startModelProgram (modelProgramFor i) "").errors = ""))) = true) := by
        simp [h0.1, h0.2]
      have hk2 : k < rest.length := by simpa using hk
      have hok2 : ∀ j, j < k →
          (L.startModelProgram (modelProgramFor (i + 1 + j)) "").linked = true
            ∧ (L.startModelProgram (modelProgramFor (i + 1 + j)) "").errors = "" := by
        intro j hj
        have := hok (j + 1) (Nat.succ_lt_succ hj)
        simpa [Nat.add_assoc, Nat.add_comm 1 j] using this
      have hbad2 : (L.startModelProgram (modelProgramFor (i + 1 + k)) "").linked = false
          ∨ (L.startModelProgram (modelProgramFor (i + 1 + k)) "").errors ≠ "" := by
        simpa [Nat.add_assoc, Nat.add_comm 1 k] using hbad
      have hrec := ih k (i + 1)
        { aborted := false
          errors := (L.startModelProgram (modelProgramFor i) "").errors
          programs := s.programs ++
            [{ modelProgramFor i with
                program := (L.startModelProgram (modelProgramFor i) "").program }]
          calls := s.calls ++ [RendererCall.startModelProgram (modelProgramFor i)
            (L.startModelProgram (modelProgramFor i) "")] }
        h0.2 hk2 hok2 hbad2
      simp only [loadModelPrograms, hs, hfail]
      rw [hrec]
      simp [List.range'_succ, Nat.add_assoc, Nat.add_comm 1 k]

/-! ## Theorems: `start` -/

/-- C2, as the code has it: whenever a load that `start` attempts reports failure, `start`
returns false and `error` holds exactly the `errors` string that load left; so `error` is
non-empty whenever the failing load left a non-empty `errors` string. -/
theorem start_failure_reported (G : Glm) (L : Loaders) (sc : Scene G) (r : OpenGLRenderer G)
    (camera : G.Cam) (error : String) (c : RendererCall)
    (hc : c ∈ (start G L sc r camera error).calls) (hfail : c.reportsFailure = true) :
    (start G L sc r camera error).ok = false
      ∧ ∃ out, c.outcome = some out
          ∧ (start G L sc r camera error).error = out.errors
          ∧ (out.errors ≠ "" → (start G L sc r camera error).error ≠ "") := by
  obtain ⟨cs, h1, h2, h3⟩ := loadModelPrograms_calls L sc.models 0
    { aborted := false, errors := "", programs := r.openGLModelPrograms, calls := [] }
  simp only [List.nil_append] at h1
  rw [← h1] at h2 h3
  generalize hloop : loadModelPrograms L sc.models 0
    { aborted := false, errors := "", programs := r.openGLModelPrograms, calls := [] } = loop
    at h2 h3
  have hloopc : ∀ c ∈ loop.calls, c.reportsFailure = true → loop.aborted = true
      ∧ ∃ out, c.outcome = some out ∧ loop.errors = out.errors := h3
  by_cases hab : loop.aborted = true
  · have hres : (start G L sc r camera error).calls = loop.calls
        ∧ (start G L sc r camera error).ok = false
        ∧ (start G L sc r camera error).error = loop.errors := by
      simp [start, hloop, hab]
    rw [hres.1] at hc
    obtain ⟨_, out, ho1, ho2⟩ := hloopc c hc hfail
    refine ⟨hres.2.1, out, ho1, ?_, ?_⟩
    · rw [hres.2.2, ho2]
    · intro hne; rw [hres.2.2, ho2]; exact hne
  · have hmodel : ∀ c ∈ loop.calls, c.reportsFailure = true → False :=
      fun c hc hf => hab (hloopc c hc hf).1
    by_cases hsky : (L.startSkyboxProgram
        { OpenGLSkyboxProgram.new with skyboxModel := SkyboxPtr.sceneSkybox }
        loop.errors).linked = true
    · by_cases hsh : (L.loadProgram
          (L.getFileContents (L.shadersBasePath ++ "ShadowMapVertex.vsh"))
          (L.getFileContents (L.shadersBasePath ++ "ShadowMapFragment.fsh"))
          (L.startSkyboxProgram
            { OpenGLSkyboxProgram.new with skyboxModel := SkyboxPtr.sceneSkybox }
            loop.errors).errors).linked = true
      · exfalso
        simp only [start, hloop, hab, hsky, hsh] at hc
        simp at hc
        rcases hc with hc | hc | hc | hc | hc | hc | hc | hc | hc
        · exact hmodel c hc hfail
        all_goals (subst hc; simp [RendererCall.reportsFailure, hsky, hsh] at hfail)
      · simp only [start, hloop, hab, hsky, hsh] at hc ⊢
        simp at hc
        rcases hc with hc | hc | hc | hc | hc
        · exact (hmodel c hc hfail).elim
        · subst hc; simp [RendererCall.reportsFailure, hsky] at hfail
        · subst hc; simp [RendererCall.reportsFailure] at hfail
        · subst hc; simp [RendererCall.reportsFailure] at hfail
        · subst hc; simp [RendererCall.outcome]
    · simp only [start, hloop, hab, hsky] at hc ⊢
      simp at hc
      rcases hc with hc | hc
      · exact (hmodel c hc hfail).elim
      · subst hc; simp [RendererCall.outcome]

/-- C2 at a concrete input: the skybox load fails with the message `compile error`. -/
theorem start_failure_reported_witness :
    (start termGlm (sampleLoaders (fun i => loadOk (20 + i)) loadFailMessage (loadOk 31)) scene2
        (sampleRenderer []) sampleCamera "").ok = false
      ∧ ∃ out, (RendererCall.startSkyboxProgram
            { OpenGLSkyboxProgram.new with skyboxModel := SkyboxPtr.sceneSkybox }
            loadFailMessage).outcome = some out
          ∧ (start termGlm (sampleLoaders (fun i => loadOk (20 + i)) loadFailMessage (loadOk 31))
              scene2 (sampleRenderer []) sampleCamera "").error = out.errors
          ∧ (out.errors ≠ "" →
              (start termGlm (sampleLoaders (fun i => loadOk (20 + i)) loadFailMessage (loadOk 31))
                scene2 (sampleRenderer []) sampleCamera "").error ≠ "") :=
  start_failure_reported termGlm
    (sampleLoaders (fun i => loadOk (20 + i)) loadFailMessage (loadOk 31)) scene2
    (sampleRenderer []) sampleCamera ""
    (RendererCall.startSkyboxProgram
      { OpenGLSkyboxProgram.new with skyboxModel := SkyboxPtr.sceneSkybox } loadFailMessage)
    (by decide) (by decide)

/-- C2 fails as stated: when the skybox load reports failure and leaves `errors` empty,
`start` returns false with an empty `error`. -/
theorem start_failure_silent_counterexample :
    ∃ c ∈ (start termGlm (sampleLoaders (fun i => loadOk (20 + i)) loadFailSilent (loadOk 31))
          scene2 (sampleRenderer []) sampleCamera "earlier text").calls,
      c.reportsFailure = true
        ∧ ¬ ((start termGlm (sampleLoaders (fun i => loadOk (20 + i)) loadFailSilent (loadOk 31))
              scene2 (sampleRenderer []) sampleCamera "earlier text").ok = false
            ∧ (start termGlm (sampleLoaders (fun i => loadOk (20 + i)) loadFailSilent (loadOk 31))
              scene2 (sampleRenderer []) sampleCamera "earlier text").error ≠ "") := by
  decide

/-- In every branch `start` leaves the program list the model loop built. -/
theorem start_programs (G : Glm) (L : Loaders) (sc : Scene G) (r : OpenGLRenderer G)
    (camera : G.Cam) (error : String) :
    (start G L sc r camera error).renderer.openGLModelPrograms
      = (loadModelPrograms L sc.models 0
          { aborted := false, errors := "", programs := r.openGLModelPrograms,
            calls := [] }).programs := by
  simp only [start]
  split_ifs <;> rfl

/-- A `start` that returns true ran its model loop to the end. -/
theorem start_ok_loop (G : Glm) (L : Loaders) (sc : Scene G) (r : OpenGLRenderer G)
    (camera : G.Cam) (error : String) (hok : (start G L sc r camera error).ok = true) :
    (loadModelPrograms L sc.models 0
      { aborted := false, errors := "", programs := r.openGLModelPrograms,
        calls := [] }).aborted = false := by
  by_contra hab
  simp only [Bool.not_eq_false] at hab
  simp [start, hab] at hok

/-- C4, as the code has it: whenever `start` returns true, the model-program list is the
list the renderer held before the call followed by exactly one new program per scene
model, the i-th new program bound to the i-th scene model and to the renderer's own camera
(which is the given camera re-centred on the scene); on a renderer whose list was empty
the list has as many programs as the scene has models. -/
theorem start_appends_model_programs (G : Glm) (L : Loaders) (sc : Scene G)
    (r : OpenGLRenderer G) (camera : G.Cam) (error : String)
    (hok : (start G L sc r camera error).ok = true) :
    (∃ new : List OpenGLRGBModelProgram,
        (start G L sc r camera error).renderer.openGLModelPrograms
            = r.openGLModelPrograms ++ new
          ∧ new.length = sc.models.length
          ∧ ∀ (i : Nat) (p : OpenGLRGBModelProgram), new[i]? = some p →
              p.model = ModelPtr.sceneModel i ∧ p.openGLCamera = CameraPtr.rendererCamera)
      ∧ (r.openGLModelPrograms = [] →
          (start G L sc r camera error).renderer.openGLModelPrograms.length = sc.models.length)
      ∧ (start G L sc r camera error).renderer.openGLCamera
          = G.setSceneCenter camera sc.sceneCenter := by
  obtain ⟨new, h1, h2, h3⟩ := loadModelPrograms_programs L sc.models 0
    { aborted := false, errors := "", programs := r.openGLModelPrograms, calls := [] }
    (start_ok_loop G L sc r camera error hok)
  simp only [Nat.zero_add] at h3
  refine ⟨⟨new, ?_, h2, h3⟩, ?_, ?_⟩
  · rw [start_programs, h1]
  · intro hnil
    rw [start_programs, h1]
    simp [hnil, h2]
  · simp only [start]
    split_ifs <;> rfl

/-- C4 at a concrete input: a first `start` on the two-model sample scene. -/
theorem start_appends_model_programs_witness :
    (start termGlm loadersOk scene2 (sampleRenderer []) sampleCamera "").ok = true
      ∧ ((sampleRenderer []).openGLModelPrograms = [] →
          (start termGlm loadersOk scene2 (sampleRenderer []) sampleCamera
            "").renderer.openGLModelPrograms.length = scene2.models.length) :=
  ⟨by decide,
    (start_appends_model_programs termGlm loadersOk scene2 (sampleRenderer []) sampleCamera ""
      (by decide)).2.1⟩

/-- C4 fails as stated: a second successful `start` on the same renderer leaves two
programs in the list for a scene with one model. -/
theorem start_twice_counterexample :
    (start termGlm loadersOk (sampleScene [sampleModel 11 1])
        (start termGlm loadersOk (sampleScene [sampleModel 11 1]) (sampleRenderer [])
          sampleCamera "").renderer sampleCamera "").ok = true
      ∧ (start termGlm loadersOk (sampleScene [sampleModel 11 1])
        (start termGlm loadersOk (sampleScene [sampleModel 11 1]) (sampleRenderer [])
          sampleCamera "").renderer sampleCamera "").renderer.openGLModelPrograms.length = 2
      ∧ (sampleScene [sampleModel 11 1]).models.length = 1 := by
  decide

/-- C5: if the programs of the first `k` scene models load successfully and the load of
the model at index `k` fails (not linked, or a non-empty `errors`), `start` returns false,
sets `error` to the `errors` string as that load left it, leaves the programs it held
followed by exactly the `k` programs created (no rollback), and its calls are exactly the
`k + 1` model-program starts: no later model, no skybox or shadow program is loaded, no
shadow texture is created and no framebuffer attachment is made. -/
theorem start_aborts_at_failed_model (G : Glm) (L : Loaders) (sc : Scene G)
    (r : OpenGLRenderer G) (camera : G.Cam) (error : String) (k : Nat)
    (hk : k < sc.models.length)
    (hok : ∀ j, j < k → (L.startModelProgram (modelProgramFor j) "").linked = true
      ∧ (L.startModelProgram (modelProgramFor j) "").errors = "")
    (hbad : (L.startModelProgram (modelProgramFor k) "").linked = false
      ∨ (L.startModelProgram (modelProgramFor k) "").errors ≠ "") :
    (start G L sc r camera error).ok = false
      ∧ (start G L sc r camera error).error = (L.startModelProgram (modelProgramFor k) "").errors
      ∧ (start G L sc r camera error).renderer.openGLModelPrograms
          = r.openGLModelPrograms ++ (List.range k).map (fun j =>
              { modelProgramFor j with
                program := (L.startModelProgram (modelProgramFor j) "").program })
      ∧ (start G L sc r camera error).calls
          = (List.range (k + 1)).map (fun j =>
              RendererCall.startModelProgram (modelProgramFor j)
                (L.startModelProgram (modelProgramFor j) "")) := by
  have hloop := loadModelPrograms_abort L sc.models k 0
    { aborted := false, errors := "", programs := r.openGLModelPrograms, calls := [] }
    rfl hk (by simpa using hok) (by simpa using hbad)
  simp only [Nat.zero_add, List.nil_append] at hloop
  simp [start, hloop, List.range_eq_range']

/-- C5 at a concrete input: of two models the first loads and the second fails. -/
theorem start_aborts_at_failed_model_witness :
    (start termGlm
        (sampleLoaders (fun i => if i = 1 then loadFailMessage else loadOk (20 + i)) (loadOk 30)
          (loadOk 31))
        scene2 (sampleRenderer []) sampleCamera "").ok = false
      ∧ (start termGlm
        (sampleLoaders (fun i => if i = 1 then loadFailMessage else loadOk (20 + i)) (loadOk 30)
          (loadOk 31))
        scene2 (sampleRenderer []) sampleCamera "").error = "compile error"
      ∧ (start termGlm
        (sampleLoaders (fun i => if i = 1 then loadFailMessage else loadOk (20 + i)) (loadOk 30)
          (loadOk 31))
        scene2 (sampleRenderer []) sampleCamera "").renderer.openGLModelPrograms
          = [{ modelProgramFor 0 with program := 20 }]
      ∧ (start termGlm
        (sampleLoaders (fun i => if i = 1 then loadFailMessage else loadOk (20 + i)) (loadOk 30)
          (loadOk 31))
        scene2 (sampleRenderer []) sampleCamera "").calls
          = [RendererCall.startModelProgram (modelProgramFor 0) (loadOk 20),
              RendererCall.startModelProgram (modelProgramFor 1) loadFailMessage] :=
  start_aborts_at_failed_model termGlm
    (sampleLoaders (fun i => if i = 1 then loadFailMessage else loadOk (20 + i)) (loadOk 30)
      (loadOk 31))
    scene2 (sampleRenderer []) sampleCamera "" 1 (by decide) (by decide) (by decide)

/-- C9: whenever `start` returns true, the shadow texture has width 1024 and height 1024,
and `start` made exactly one `createTexture` call, on a 1024 by 1024 texture, with min and
mag filter `GL_NEAREST`, wrap S and wrap T `GL_CLAMP_TO_EDGE`, compare mode
`GL_COMPARE_REF_TO_TEXTURE`, compare function `GL_LEQUAL`, internal format
`GL_DEPTH_COMPONENT24`, format `GL_DEPTH_COMPONENT` and type `GL_UNSIGNED_INT`, whatever
the camera, the scene, the loaders and the renderer state `start` was called on. -/
theorem start_shadow_texture_fixed (G : Glm) (L : Loaders) (sc : Scene G)
    (r : OpenGLRenderer G) (camera : G.Cam) (error : String)
    (hok : (start G L sc r camera error).ok = true) :
    (start G L sc r camera error).renderer.shadowTexture.textureWidth = 1024
      ∧ (start G L sc r camera error).renderer.shadowTexture.textureHeight = 1024
      ∧ (start G L sc r camera error).calls.filter RendererCall.isCreateTexture
          = [RendererCall.createTexture
              { _textureId := r.shadowTexture._textureId, textureWidth := 1024,
                textureHeight := 1024 }
              [ ⟨GLenum.GL_TEXTURE_MIN_FILTER, OpenGLTextureParameterType.Int, GLenum.GL_NEAREST⟩,
                ⟨GLenum.GL_TEXTURE_MAG_FILTER, OpenGLTextureParameterType.Int, GLenum.GL_NEAREST⟩,
                ⟨GLenum.GL_TEXTURE_WRAP_S, OpenGLTextureParameterType.Int,
                  GLenum.GL_CLAMP_TO_EDGE⟩,
                ⟨GLenum.GL_TEXTURE_WRAP_T, OpenGLTextureParameterType.Int,
                  GLenum.GL_CLAMP_TO_EDGE⟩,
                ⟨GLenum.GL_TEXTURE_COMPARE_MODE, OpenGLTextureParameterType.Int,
                  GLenum.GL_COMPARE_REF_TO_TEXTURE⟩,
                ⟨GLenum.GL_TEXTURE_COMPARE_FUNC, OpenGLTextureParameterType.Int,
                  GLenum.GL_LEQUAL⟩ ]
              GLenum.GL_DEPTH_COMPONENT24 GLenum.GL_DEPTH_COMPONENT GLenum.GL_UNSIGNED_INT] := by
  obtain ⟨cs, h1, h2, _⟩ := loadModelPrograms_calls L sc.models 0
    { aborted := false, errors := "", programs := r.openGLModelPrograms, calls := [] }
  simp only [List.nil_append] at h1
  rw [← h1] at h2
  have hab := start_ok_loop G L sc r camera error hok
  have hnone : (loadModelPrograms L sc.models 0
      { aborted := false, errors := "", programs := r.openGLModelPrograms,
        calls := [] }).calls.filter RendererCall.isCreateTexture = [] := by
    rw [List.filter_eq_nil_iff]
    intro c hc
    have := h2 c hc
    cases c <;> simp_all [RendererCall.isStartModelProgram, RendererCall.isCreateTexture]
  simp only [start, hab] at hok ⊢
  by_cases hsky : (L.startSkyboxProgram
      { OpenGLSkyboxProgram.new with skyboxModel := SkyboxPtr.sceneSkybox }
      (loadModelPrograms L sc.models 0
        { aborted := false, errors := "", programs := r.openGLModelPrograms,
          calls := [] }).errors).linked = true
  · by_cases hsh : (L.loadProgram
        (L.getFileContents (L.shadersBasePath ++ "ShadowMapVertex.vsh"))
        (L.getFileContents (L.shadersBasePath ++ "ShadowMapFragment.fsh"))
        (L.startSkyboxProgram
          { OpenGLSkyboxProgram.new with skyboxModel := SkyboxPtr.sceneSkybox }
          (loadModelPrograms L sc.models 0
            { aborted := false, errors := "", programs := r.openGLModelPrograms,
              calls := [] }).errors).errors).linked = true
    · simp [hsky, hsh, hnone, List.filter_cons, RendererCall.isCreateTexture,
        shadowTextureParameters]
    · simp [hsky, hsh] at hok
  · simp [hsky] at hok

/-- C9 at a concrete input: a successful `start` on the two-model sample scene. -/
theorem start_shadow_texture_fixed_witness :
    (start termGlm loadersOk scene2 (sampleRenderer []) sampleCamera "").ok = true
      ∧ (start termGlm loadersOk scene2 (sampleRenderer []) sampleCamera
          "").renderer.shadowTexture.textureWidth = 1024
      ∧ (start termGlm loadersOk scene2 (sampleRenderer []) sampleCamera
          "").renderer.shadowTexture.textureHeight = 1024 :=
  ⟨by decide,
    (start_shadow_texture_fixed termGlm loadersOk scene2 (sampleRenderer []) sampleCamera ""
      (by decide)).1,
    (start_shadow_texture_fixed termGlm loadersOk scene2 (sampleRenderer []) sampleCamera ""
      (by decide)).2.1⟩

/-! ## Theorems: `shutdown` -/

/-- Writing the slot just behind a filled front of the array. -/
theorem set_after_front {α : Type} (front : List α) (a x : α) (rest : List α) :
    (front ++ a :: rest).set front.length x = front ++ x :: rest := by
  induction front with
  | nil => rfl
  | cons b front ih => simp [ih]

/-- The loop of `shutdown` on programs whose model pointers are valid, entered with `i`
slots written and at least as many free slots as programs: it writes one slot and logs one
`deleteProgram` per program. -/
theorem shutdownLoop_valid {G : Glm} (sc : Scene G) (ps : List OpenGLRGBModelProgram) :
    ∀ (front : List (Option Nat)) (spare : Nat) (calls : List RendererCall),
      (∀ p ∈ ps, ∃ v, vboOf sc p = some v) →
      shutdownLoop sc ps
          { vbo := front ++ List.replicate (ps.length + spare) none
            i := front.length
            calls := calls }
        = some
          { vbo := front ++ ps.map (vboOf sc) ++ List.replicate spare none
            i := front.length + ps.length
            calls := calls ++ (List.enumFrom front.length ps).map (fun ip =>
              RendererCall.deleteProgram (ProgramRef.modelProgram ip.1) ip.2.program) } := by
  induction ps with
  | nil => intro front spare calls _; simp [shutdownLoop]
  | cons p rest ih =>
    intro front spare calls hvalid
    obtain ⟨v, hv⟩ := hvalid p (List.mem_cons_self _ _)
    have hrest : ∀ q ∈ rest, ∃ v, vboOf sc q = some v :=
      fun q hq => hvalid q (List.mem_cons_of_mem _ hq)
    have hlen : front.length < (front ++ List.replicate (rest.length + 1 + spare) none).length := by
      simp
    cases hp : p.model with
    | null => simp [vboOf, hp] at hv
    | sceneModel j =>
      cases hm : sc.models[j]? with
      | none => simp [vboOf, hp, hm] at hv
      | some m =>
        have hv2 : vboOf sc p = some m._vboId := by simp [vboOf, hp, hm]
        have hset : (front ++ List.replicate (rest.length + 1 + spare) none).set front.length
            (some m._vboId)
            = (front ++ [some m._vboId]) ++ List.replicate (rest.length + spare) none := by
          have : rest.length + 1 + spare = (rest.length + spare) + 1 := by omega
          rw [this, List.replicate_succ, set_after_front]
          simp
        have hrec := ih (front ++ [some m._vboId]) spare
          (calls ++ [RendererCall.deleteProgram (ProgramRef.modelProgram front.length) p.program])
          hrest
        simp only [List.length_append, List.length_singleton] at hrec
        simp only [shutdownLoop, hp, hm, List.length_cons, hlen, if_true, hset]
        rw [hrec]
        simp [hv2, List.enumFrom_cons, Nat.add_assoc, Nat.add_comm 1 rest.length]

/-- Reading a list through its own indices. -/
theorem map_range_getElem? {α : Type} (l : List α) :
    (List.range l.length).map (fun j => l[j]?) = l.map some := by
  apply List.ext_getElem?
  intro i
  by_cases hi : i < l.length
  · simp [hi, List.getElem?_range hi]
  · have h1 : l.length ≤ i := Nat.le_of_not_lt hi
    simp [List.getElem?_eq_none, h1]

/-- The buffer ids `shutdown` reads through a program list bound to the scene models in
order are the models' `_vboId` values in scene order. -/
theorem vboOf_started {G : Glm} (sc : Scene G) (ps : List OpenGLRGBModelProgram)
    (hstarted : ps.map (fun p => p.model)
      = (List.range sc.models.length).map ModelPtr.sceneModel) :
    ps.map (vboOf sc) = sc.models.map (fun m => some m._vboId) := by
  have h1 : ps.map (vboOf sc)
      = (ps.map (fun p => p.model)).map (fun q =>
          match q with
          | .null => none
          | .sceneModel j => (sc.models[j]?).map (fun m => m._vboId)) := by
    rw [List.map_map]
    apply List.map_congr_left
    intro p _
    simp only [vboOf, Function.comp]
  rw [h1, hstarted, List.map_map]
  have h2 := congrArg (List.map (fun o : Option (Model3D G) => o.map (fun m => m._vboId)))
    (map_range_getElem? sc.models)
  simp only [List.map_map] at h2
  simpa [Function.comp_def] using h2

/-- A successful `start` on a renderer with no model programs leaves a list bound to the
scene models in scene order: the state on which `shutdown` is meant to run. -/
theorem start_fresh_bound_in_order (G : Glm) (L : Loaders) (sc : Scene G)
    (r : OpenGLRenderer G) (camera : G.Cam) (error : String)
    (hnil : r.openGLModelPrograms = [])
    (hok : (start G L sc r camera error).ok = true) :
    (start G L sc r camera error).renderer.openGLModelPrograms.map (fun p => p.model)
      = (List.range sc.models.length).map ModelPtr.sceneModel := by
  obtain ⟨new, h1, h2, h3⟩ := loadModelPrograms_programs L sc.models 0
    { aborted := false, errors := "", programs := r.openGLModelPrograms, calls := [] }
    (start_ok_loop G L sc r camera error hok)
  rw [start_programs, h1, hnil, List.nil_append, ← h2]
  apply List.ext_getElem?
  intro i
  by_cases hi : i < new.length
  · have hb := h3 i new[i] (List.getElem?_eq_getElem hi)
    simp [hi, List.getElem?_range hi, hb.1]
  · have h4 : new.length ≤ i := Nat.le_of_not_lt hi
    simp [List.getElem?_eq_none, h4]

/-- C3: on a renderer whose model-program list holds one program per scene model, bound to
the models in scene order (as one successful `start` leaves it), `shutdown` deletes the
shadow program, then deletes every model program once, then issues one `glDeleteBuffers`
call whose count is the number of scene models and whose buffers are the models' `_vboId`
values in scene order; that is its only buffer deletion, it never deletes the skybox
program, and the skybox buffer is not among the deleted buffers unless a model shares its
id. -/
theorem shutdown_releases_model_buffers (G : Glm) (sc : Scene G) (r : OpenGLRenderer G)
    (hstarted : r.openGLModelPrograms.map (fun p => p.model)
      = (List.range sc.models.length).map ModelPtr.sceneModel) :
    shutdown G sc r
        = some (RendererCall.deleteProgram ProgramRef.shadowProgram r.openGLShadowProgram.program
            :: ((List.enumFrom 0 r.openGLModelPrograms).map (fun ip =>
                  RendererCall.deleteProgram (ProgramRef.modelProgram ip.1) ip.2.program)
                ++ [RendererCall.glDeleteBuffers (sc.models.length : Int)
                      (sc.models.map (fun m => some m._vboId))]))
      ∧ ∀ calls, shutdown G sc r = some calls →
          (calls.filter RendererCall.isDeleteBuffers).length = 1
            ∧ (∀ h, RendererCall.deleteProgram ProgramRef.skyboxProgram h ∉ calls)
            ∧ ((∀ m ∈ sc.models, m._vboId ≠ sc.skybox._vboId) →
                ∀ n bufs, RendererCall.glDeleteBuffers n bufs ∈ calls →
                  some sc.skybox._vboId ∉ bufs) := by
  have hvbo := vboOf_started sc r.openGLModelPrograms hstarted
  have hlen : sc.models.length = r.openGLModelPrograms.length := by
    have := congrArg List.length hstarted
    simpa using this.symm
  have hvalid : ∀ p ∈ r.openGLModelPrograms, ∃ v, vboOf sc p = some v := by
    intro p hp
    have hmem : vboOf sc p ∈ r.openGLModelPrograms.map (vboOf sc) := List.mem_map_of_mem _ hp
    rw [hvbo] at hmem
    obtain ⟨m, _, hm⟩ := List.mem_map.mp hmem
    exact ⟨m._vboId, hm.symm⟩
  have hloop := shutdownLoop_valid sc r.openGLModelPrograms [] 0
    [RendererCall.deleteProgram ProgramRef.shadowProgram r.openGLShadowProgram.program] hvalid
  simp only [List.nil_append, Nat.add_zero, List.length_nil, Nat.zero_add, List.replicate_zero,
    List.append_nil] at hloop
  have hmain : shutdown G sc r
      = some (RendererCall.deleteProgram ProgramRef.shadowProgram r.openGLShadowProgram.program
          :: ((List.enumFrom 0 r.openGLModelPrograms).map (fun ip =>
                RendererCall.deleteProgram (ProgramRef.modelProgram ip.1) ip.2.program)
              ++ [RendererCall.glDeleteBuffers (sc.models.length : Int)
                    (sc.models.map (fun m => some m._vboId))])) := by
    simp only [shutdown]
    rw [hlen, hloop, hvbo]
    simp
  refine ⟨hmain, ?_⟩
  intro calls hcalls
  rw [hmain] at hcalls
  have hc := (Option.some.inj hcalls).symm
  subst hc
  refine ⟨?_, ?_, ?_⟩
  · have hnone : ((List.enumFrom 0 r.openGLModelPrograms).map (fun ip =>
          RendererCall.deleteProgram (ProgramRef.modelProgram ip.1) ip.2.program)).filter
          RendererCall.isDeleteBuffers = [] := by
      rw [List.filter_eq_nil_iff]
      intro c hc
      obtain ⟨ip, _, hip⟩ := List.mem_map.mp hc
      subst hip
      simp [RendererCall.isDeleteBuffers]
    simp [List.filter_cons, List.filter_append, RendererCall.isDeleteBuffers, hnone]
  · intro h hmem
    simp at hmem
  · intro hdistinct n bufs hmem
    simp at hmem
    obtain ⟨_, hb⟩ := hmem
    subst hb
    intro hin
    obtain ⟨m, hm, hmv⟩ := List.mem_map.mp hin
    exact hdistinct m hm (Option.some.inj hmv)

/-- C3 at a concrete input: `shutdown` after one successful `start` on the two-model sample
scene. -/
theorem shutdown_releases_model_buffers_witness :
    (start termGlm loadersOk scene2 (sampleRenderer []) sampleCamera "").ok = true
      ∧ shutdown termGlm scene2
          (start termGlm loadersOk scene2 (sampleRenderer []) sampleCamera "").renderer
        = some
          [ RendererCall.deleteProgram ProgramRef.shadowProgram 31,
            RendererCall.deleteProgram (ProgramRef.modelProgram 0) 20,
            RendererCall.deleteProgram (ProgramRef.modelProgram 1) 21,
            RendererCall.glDeleteBuffers 2 [some 11, some 12] ] :=
  ⟨by decide,
    (shutdown_releases_model_buffers termGlm scene2
      (start termGlm loadersOk scene2 (sampleRenderer []) sampleCamera "").renderer
      (by decide)).1⟩

/-! ## Theorems: replaying the calls of `draw` -/

theorem calls_eq {G : Glm} (E : ProgramDraws) (cs : List (GLCall G)) :
    ∀ k : GLContext G,
      k.calls E cs = { state := k.state.run E cs, trace := k.trace ++ stamp E k.state cs } := by
  induction cs with
  | nil => intro k; simp [GLContext.calls, GLState.run, stamp]
  | cons c cs ih =>
    intro k
    have := ih (k.call E c)
    simp only [GLContext.calls, GLState.run, List.foldl_cons] at this ⊢
    rw [this]
    simp [GLContext.call, stamp]

theorem calls_append {G : Glm} (E : ProgramDraws) (k : GLContext G) (a b : List (GLCall G)) :
    k.calls E (a ++ b) = (k.calls E a).calls E b := by
  simp [GLContext.calls, List.foldl_append]

theorem run_append {G : Glm} (E : ProgramDraws) (σ : GLState) (a b : List (GLCall G)) :
    σ.run E (a ++ b) = (σ.run E a).run E b := by
  simp [GLState.run, List.foldl_append]

theorem stamp_append {G : Glm} (E : ProgramDraws) (a b : List (GLCall G)) :
    ∀ σ : GLState, stamp E σ (a ++ b) = stamp E σ a ++ stamp E (σ.run E a) b := by
  induction a with
  | nil => intro σ; simp [stamp, GLState.run]
  | cons c a ih => intro σ; simp [stamp, GLState.run, ih]

theorem stamp_map_snd {G : Glm} (E : ProgramDraws) (cs : List (GLCall G)) :
    ∀ σ : GLState, (stamp E σ cs).map Prod.snd = cs := by
  induction cs with
  | nil => intro σ; simp [stamp]
  | cons c cs ih => intro σ; simp [stamp, ih]

theorem stamp_mem_snd {G : Glm} (E : ProgramDraws) (cs : List (GLCall G)) (σ : GLState)
    (e : GLState × GLCall G) (he : e ∈ stamp E σ cs) : e.2 ∈ cs := by
  have h : e.2 ∈ (stamp E σ cs).map Prod.snd := List.mem_map_of_mem _ he
  rwa [stamp_map_snd] at h

/-- A property of the state that every call of a sequence preserves holds at every call of
the sequence and at its end. -/
theorem stamp_invariant {G : Glm} (E : ProgramDraws) (P : GLState → Prop)
    (cs : List (GLCall G)) :
    ∀ σ : GLState, (∀ c ∈ cs, ∀ τ, P τ → P (τ.apply E c)) → P σ →
      (∀ e ∈ stamp E σ cs, P e.1) ∧ P (σ.run E cs) := by
  induction cs with
  | nil => intro σ _ h0; simp [stamp, GLState.run, h0]
  | cons c cs ih =>
    intro σ hstep h0
    have h1 : P (σ.apply E c) := hstep c (List.mem_cons_self _ _) σ h0
    obtain ⟨ha, hb⟩ := ih (σ.apply E c) (fun d hd => hstep d (List.mem_cons_of_mem _ hd)) h1
    refine ⟨?_, ?_⟩
    · intro e he
      rcases List.mem_cons.mp he with he | he
      · subst he; exact h0
      · exact ha e he
    · simpa [GLState.run] using hb

theorem shadowLoop_eq {G : Glm} (E : ProgramDraws) (r : OpenGLRenderer G)
    (ms : List (Model3D G)) :
    ∀ k : GLContext G,
      ms.foldl (fun k currentModel => k.calls E (shadowPassModel G r currentModel)) k
        = k.calls E (ms.flatMap (shadowPassModel G r)) := by
  induction ms with
  | nil => intro k; simp [GLContext.calls]
  | cons m ms ih =>
    intro k
    simp only [List.foldl_cons, List.flatMap_cons, calls_append]
    exact ih _

theorem colourLoop_eq {G : Glm} (E : ProgramDraws) (ps : List OpenGLRGBModelProgram) :
    ∀ (acc : List OpenGLRGBModelProgram) (k : GLContext G),
      ps.foldl (colourPassProgram E) (acc, k)
        = (acc ++ ps.map withShadowTexture,
            k.calls E (ps.map (fun p => GLCall.modelProgramDraw (withShadowTexture p)))) := by
  induction ps with
  | nil => intro acc k; simp [GLContext.calls]
  | cons p ps ih =>
    intro acc k
    simp only [List.foldl_cons, colourPassProgram, List.map_cons]
    rw [ih]
    simp [GLContext.calls, withShadowTexture]

/-- The calls `draw` issues, as one sequence: the context `draw` leaves is the one reached by
issuing the shadow-pass calls and then the colour-pass calls. -/
theorem draw_context (G : Glm) (E : ProgramDraws) (sc : Scene G) (r : OpenGLRenderer G)
    (k : GLContext G) :
    (draw G E sc r k).2
      = k.calls E (shadowPassCalls G sc r ++ colourPassCalls G r k.state) := by
  simp only [draw, shadowLoop_eq, colourLoop_eq, shadowPassCalls, colourPassCalls, shadowEnter,
    shadowState, shadowModels, colourEnter, colourModels]
  simp [GLContext.calls, GLContext.call, GLState.apply, List.foldl_append]

theorem stamp_cons {G : Glm} (E : ProgramDraws) (σ : GLState) (c : GLCall G)
    (cs : List (GLCall G)) : stamp E σ (c :: cs) = (σ, c) :: stamp E (σ.apply E c) cs := rfl

theorem keepsFramebuffer_apply {G : Glm} (E : ProgramDraws) (c : GLCall G) (σ : GLState)
    (h : c.keepsFramebuffer = true) :
    (σ.apply E c).framebufferBinding = σ.framebufferBinding := by
  cases c <;> simp_all [GLCall.keepsFramebuffer, GLState.apply]
  · split <;> rfl
  · rename_i cap; cases cap <;> rfl

theorem keepsRaster_apply {G : Glm} (E : ProgramDraws) (c : GLCall G) (σ : GLState)
    (h : c.keepsRaster = true) : (σ.apply E c).raster = σ.raster := by
  cases c <;> simp_all [GLCall.keepsRaster, GLState.apply, GLState.raster]
  split <;> simp

/-- Every call of the shadow-pass loop leaves framebuffer binding, capabilities and colour
mask alone, and is neither a colour-mask call nor a program draw. -/
theorem shadowLoop_calls_keep {G : Glm} (r : OpenGLRenderer G) (ms : List (Model3D G)) :
    ∀ c ∈ ms.flatMap (shadowPassModel G r),
      c.keepsFramebuffer = true ∧ c.keepsRaster = true ∧ c.isProgramDraw = false
        ∧ c.isColorMask = false := by
  intro c hc
  obtain ⟨m, _, hm⟩ := List.mem_flatMap.mp hc
  simp only [shadowPassModel, List.mem_cons, List.mem_singleton, List.not_mem_nil,
    or_false] at hm
  rcases hm with h | h | h | h | h | h | h | h | h | h <;> subst h <;>
    simp [GLCall.keepsFramebuffer, GLCall.keepsRaster, GLCall.isProgramDraw, GLCall.isColorMask]

/-- The shadow-pass loop issues one `glDrawArrays` per model, in scene order. -/
theorem shadowLoop_drawArrays {G : Glm} (r : OpenGLRenderer G) (ms : List (Model3D G)) :
    (ms.flatMap (shadowPassModel G r)).filter GLCall.isDrawArrays
      = ms.map (fun m => GLCall.glDrawArrays GLenum.GL_TRIANGLES 0 m.numberOfVerticesToDraw) := by
  induction ms with
  | nil => rfl
  | cons m ms ih =>
    simp only [List.flatMap_cons, List.filter_append, ih, List.map_cons]
    simp [shadowPassModel, List.filter_cons, GLCall.isDrawArrays]

/-- The calls from `glViewport` to the end of the shadow-pass loop keep the framebuffer
binding, and none is a program draw. -/
theorem shadowBody_keep (G : Glm) (sc : Scene G) (r : OpenGLRenderer G) :
    ∀ c ∈ shadowState G r ++ (GLCall.glColorMask false false false false :: shadowModels G sc r),
      c.keepsFramebuffer = true ∧ c.isProgramDraw = false := by
  intro c hc
  simp only [shadowState, shadowModels, List.mem_append, List.mem_cons, List.mem_singleton,
    List.not_mem_nil, or_false] at hc
  rcases hc with (h | h | h | h | h) | h | h | h
  · subst h; simp [GLCall.keepsFramebuffer, GLCall.isProgramDraw]
  · subst h; simp [GLCall.keepsFramebuffer, GLCall.isProgramDraw]
  · subst h; simp [GLCall.keepsFramebuffer, GLCall.isProgramDraw]
  · subst h; simp [GLCall.keepsFramebuffer, GLCall.isProgramDraw]
  · subst h; simp [GLCall.keepsFramebuffer, GLCall.isProgramDraw]
  · subst h; simp [GLCall.keepsFramebuffer, GLCall.isProgramDraw]
  · subst h; simp [GLCall.keepsFramebuffer, GLCall.isProgramDraw]
  · exact ⟨(shadowLoop_calls_keep r sc.models c h).1, (shadowLoop_calls_keep r sc.models c h).2.2.1⟩

/-- The calls from `glPolygonOffset` to the viewport call of the colour pass keep the
capabilities and the colour mask; none is a colour-mask call or a program draw. -/
theorem afterMask_keep (G : Glm) (sc : Scene G) (r : OpenGLRenderer G) (σ : GLState) :
    ∀ c ∈ shadowModels G sc r ++ colourEnter G σ,
      c.keepsRaster = true ∧ c.isColorMask = false ∧ c.isProgramDraw = false := by
  intro c hc
  simp only [shadowModels, colourEnter, List.mem_append, List.mem_cons, List.mem_singleton,
    List.not_mem_nil, or_false] at hc
  rcases hc with (h | h) | h | h
  · subst h; simp [GLCall.keepsRaster, GLCall.isColorMask, GLCall.isProgramDraw]
  · have := shadowLoop_calls_keep r sc.models c h
    exact ⟨this.2.1, this.2.2.2, this.2.2.1⟩
  · subst h; simp [GLCall.keepsRaster, GLCall.isColorMask, GLCall.isProgramDraw]
  · subst h; simp [GLCall.keepsRaster, GLCall.isColorMask, GLCall.isProgramDraw]

/-- The trace of `draw` on a fresh context, split at the end of the shadow-pass loop. -/
theorem draw_trace (G : Glm) (E : ProgramDraws) (sc : Scene G) (r : OpenGLRenderer G)
    (σ : GLState) :
    (draw G E sc r (GLContext.fresh G σ)).2.trace
      = stamp E σ (shadowPassCalls G sc r)
        ++ stamp E (σ.run E (shadowPassCalls G sc r)) (colourPassCalls G r σ) := by
  rw [draw_context, calls_eq, stamp_append]
  simp [GLContext.fresh]

/-- The shadow depth framebuffer is bound once the first four calls of `draw` are made. -/
theorem shadowEnter_framebuffer (G : Glm) (E : ProgramDraws) (r : OpenGLRenderer G)
    (σ : GLState) :
    (σ.run E (shadowEnter G r)).framebufferBinding
      = r.shadowDepthFramebufferObject.framebufferObjectId := by
  simp [shadowEnter, GLState.run, GLState.apply]

/-- C8: the trace of one `draw` splits into a shadow pass followed by a colour pass. The
shadow pass holds one `glDrawArrays` per scene model, in scene order, each issued while the
shadow depth framebuffer is bound, and no program draw. The colour pass starts by
re-binding the framebuffer that was bound when `draw` was entered, then sets the viewport,
draws the skybox (with that framebuffer bound) and draws every model program; it holds no
`glDrawArrays` of `draw` itself. -/
theorem draw_shadow_pass_framebuffer (G : Glm) (E : ProgramDraws) (sc : Scene G)
    (r : OpenGLRenderer G) (σ : GLState) :
    ∃ shadowPass colourPass : List (GLState × GLCall G),
      (draw G E sc r (GLContext.fresh G σ)).2.trace = shadowPass ++ colourPass
        ∧ (shadowPass.map Prod.snd).filter GLCall.isDrawArrays
            = sc.models.map (fun m =>
                GLCall.glDrawArrays GLenum.GL_TRIANGLES 0 m.numberOfVerticesToDraw)
        ∧ (∀ e ∈ shadowPass, e.2.isDrawArrays = true →
            e.1.framebufferBinding = r.shadowDepthFramebufferObject.framebufferObjectId)
        ∧ (∀ e ∈ shadowPass, e.2.isProgramDraw = false)
        ∧ colourPass.map Prod.snd
            = [ GLCall.glBindFramebuffer GLenum.GL_FRAMEBUFFER σ.framebufferBinding,
                GLCall.glViewport 0 0 σ.viewport.2.2.1 σ.viewport.2.2.2,
                GLCall.skyboxProgramDraw r.openGLSkyboxProgram ]
              ++ r.openGLModelPrograms.map (fun p =>
                  GLCall.modelProgramDraw (withShadowTexture p))
        ∧ (∀ e ∈ colourPass, e.2.isDrawArrays = false)
        ∧ (∀ e ∈ colourPass, e.2 = GLCall.skyboxProgramDraw r.openGLSkyboxProgram →
            e.1.framebufferBinding = σ.framebufferBinding) := by
  refine ⟨stamp E σ (shadowPassCalls G sc r),
    stamp E (σ.run E (shadowPassCalls G sc r)) (colourPassCalls G r σ),
    draw_trace G E sc r σ, ?_, ?_, ?_, ?_, ?_, ?_⟩
  · rw [stamp_map_snd]
    simp only [shadowPassCalls, shadowModels, List.filter_append, List.filter_cons,
      shadowLoop_drawArrays]
    simp [shadowEnter, shadowState, GLCall.isDrawArrays]
  · intro e he hdraw
    rw [shadowPassCalls, stamp_append] at he
    rcases List.mem_append.mp he with he | he
    · have hmem := stamp_mem_snd E _ _ e he
      simp only [shadowEnter, List.mem_cons, List.mem_singleton, List.not_mem_nil,
        or_false] at hmem
      rcases hmem with h | h | h | h <;> rw [h] at hdraw <;>
        simp [GLCall.isDrawArrays] at hdraw
    · exact (stamp_invariant E
        (fun τ => τ.framebufferBinding = r.shadowDepthFramebufferObject.framebufferObjectId)
        _ _
        (fun c hc τ hτ =>
          (keepsFramebuffer_apply E c τ (shadowBody_keep G sc r c hc).1).trans hτ)
        (shadowEnter_framebuffer G E r σ)).1 e he
  · intro e he
    have hmem := stamp_mem_snd E _ _ e he
    rw [shadowPassCalls] at hmem
    rcases List.mem_append.mp hmem with hc | hc
    · simp only [shadowEnter, List.mem_cons, List.mem_singleton, List.not_mem_nil,
        or_false] at hc
      rcases hc with h | h | h | h <;> rw [h] <;> simp [GLCall.isProgramDraw]
    · exact (shadowBody_keep G sc r e.2 hc).2
  · rw [stamp_map_snd]
    simp [colourPassCalls, colourEnter, colourModels]
  · intro e he
    have hmem := stamp_mem_snd E _ _ e he
    simp only [colourPassCalls, colourEnter, colourModels, List.mem_append, List.mem_cons,
      List.mem_singleton, List.not_mem_nil, or_false, List.mem_map] at hmem
    rcases hmem with (h | h) | h | ⟨p, _, h⟩
    · rw [h]; simp [GLCall.isDrawArrays]
    · rw [h]; simp [GLCall.isDrawArrays]
    · rw [h]; simp [GLCall.isDrawArrays]
    · rw [← h]; simp [GLCall.isDrawArrays]
  · intro e he hsky
    generalize σ.run E (shadowPassCalls G sc r) = σ1 at he
    simp only [colourPassCalls, colourEnter, List.cons_append, List.nil_append] at he
    rw [stamp_cons, stamp_cons, stamp_cons] at he
    simp only [List.mem_cons] at he
    rcases he with h | h | h | h
    · rw [h] at hsky; simp at hsky
    · rw [h] at hsky; simp at hsky
    · rw [h]
      exact @keepsFramebuffer_apply G E
        (GLCall.glViewport 0 0 σ.viewport.2.2.1 σ.viewport.2.2.2)
        (GLState.apply E σ1 (GLCall.glBindFramebuffer GLenum.GL_FRAMEBUFFER σ.framebufferBinding))
        rfl
    · have hmem := stamp_mem_snd E _ _ e h
      obtain ⟨p, _, hp⟩ := List.mem_map.mp hmem
      rw [hsky] at hp
      simp at hp

/-- The calls of `draw`, regrouped around the colour-mask call and the skybox draw. -/
theorem drawCalls_regroup (G : Glm) (sc : Scene G) (r : OpenGLRenderer G) (σ : GLState) :
    shadowPassCalls G sc r ++ colourPassCalls G r σ
      = (shadowEnter G r ++ shadowState G r)
        ++ GLCall.glColorMask false false false false
          :: ((shadowModels G sc r ++ colourEnter G σ)
            ++ GLCall.skyboxProgramDraw r.openGLSkyboxProgram :: colourModels G r) := by
  simp [shadowPassCalls, colourPassCalls, List.append_assoc]

/-- The stamped trace of a sequence with two marked calls. -/
theorem stamp_two_marks {G : Glm} (E : ProgramDraws) (σ : GLState) (a b c : List (GLCall G))
    (x y : GLCall G) :
    stamp E σ (a ++ x :: (b ++ y :: c))
      = stamp E σ a ++ (σ.run E a, x)
          :: (stamp E ((σ.run E a).apply E x) b
            ++ (((σ.run E a).apply E x).run E b, y)
              :: stamp E ((((σ.run E a).apply E x).run E b).apply E y) c) := by
  rw [stamp_append, stamp_cons, stamp_append, stamp_cons]

/-- Right after the colour-mask call of `draw`, face culling, depth test and polygon-offset
fill are enabled and colour writes are off. -/
theorem colorMask_raster (G : Glm) (E : ProgramDraws) (r : OpenGLRenderer G) (σ : GLState) :
    ((σ.run E (shadowEnter G r ++ shadowState G r)).apply E
        (GLCall.glColorMask false false false false : GLCall G)).raster
      = (true, true, true, (false, false, false, false)) := by
  simp only [shadowEnter, shadowState, GLState.run, List.cons_append, List.nil_append,
    List.foldl_cons, List.foldl_nil, GLState.apply, GLState.enable, GLState.raster]

/-- C10: `draw` never turns colour writes back on. Its trace reads: some calls, then
`glColorMask(false, false, false, false)`, then calls none of which is a colour-mask call
or a program draw and each of which is issued with the colour mask all-false, then the
skybox program's draw, issued with the colour mask still all-false and with face culling,
depth test and polygon-offset fill enabled, then calls none of which is a colour-mask
call. -/
theorem draw_colour_mask_stays_off (G : Glm) (E : ProgramDraws) (sc : Scene G)
    (r : OpenGLRenderer G) (σ : GLState) :
    ∃ (before between after : List (GLState × GLCall G)) (σm σs : GLState),
      (draw G E sc r (GLContext.fresh G σ)).2.trace
          = before ++ (σm, GLCall.glColorMask false false false false)
              :: (between ++ (σs, GLCall.skyboxProgramDraw r.openGLSkyboxProgram) :: after)
        ∧ (∀ e ∈ before, e.2.isProgramDraw = false)
        ∧ (∀ e ∈ between, e.2.isColorMask = false ∧ e.2.isProgramDraw = false
            ∧ e.1.colorMask = (false, false, false, false))
        ∧ (∀ e ∈ after, e.2.isColorMask = false)
        ∧ σs.colorMask = (false, false, false, false)
        ∧ σs.cullFace = true ∧ σs.depthTest = true ∧ σs.polygonOffsetFill = true := by
  have hinv := stamp_invariant E
    (fun τ => τ.raster = (true, true, true, (false, false, false, false)))
    (shadowModels G sc r ++ colourEnter G σ)
    ((σ.run E (shadowEnter G r ++ shadowState G r)).apply E
      (GLCall.glColorMask false false false false : GLCall G))
    (fun c hc τ hτ => (keepsRaster_apply E c τ (afterMask_keep G sc r σ c hc).1).trans hτ)
    (colorMask_raster G E r σ)
  refine ⟨stamp E σ (shadowEnter G r ++ shadowState G r),
    stamp E ((σ.run E (shadowEnter G r ++ shadowState G r)).apply E
      (GLCall.glColorMask false false false false : GLCall G))
      (shadowModels G sc r ++ colourEnter G σ),
    stamp E ((((σ.run E (shadowEnter G r ++ shadowState G r)).apply E
      (GLCall.glColorMask false false false false : GLCall G)).run E
        (shadowModels G sc r ++ colourEnter G σ)).apply E
          (GLCall.skyboxProgramDraw r.openGLSkyboxProgram : GLCall G)) (colourModels G r),
    σ.run E (shadowEnter G r ++ shadowState G r),
    ((σ.run E (shadowEnter G r ++ shadowState G r)).apply E
      (GLCall.glColorMask false false false false : GLCall G)).run E
        (shadowModels G sc r ++ colourEnter G σ),
    ?_, ?_, ?_, ?_, ?_, ?_, ?_, ?_⟩
  · rw [draw_context, calls_eq, drawCalls_regroup, stamp_two_marks]
    simp [GLContext.fresh]
  · intro e he
    have hmem := stamp_mem_snd E _ _ e he
    simp only [shadowEnter, shadowState, List.mem_append, List.mem_cons, List.mem_singleton,
      List.not_mem_nil, or_false] at hmem
    rcases hmem with (h | h | h | h) | h | h | h | h | h <;> rw [h] <;>
      simp [GLCall.isProgramDraw]
  · intro e he
    have hkeep := afterMask_keep G sc r σ e.2 (stamp_mem_snd E _ _ e he)
    have hr := hinv.1 e he
    simp only [GLState.raster, Prod.mk.injEq] at hr
    exact ⟨hkeep.2.1, hkeep.2.2, hr.2.2.2⟩
  · intro e he
    have hmem := stamp_mem_snd E _ _ e he
    obtain ⟨p, _, hp⟩ := List.mem_map.mp hmem
    rw [← hp]
    simp [GLCall.isColorMask]
  · have hr := hinv.2
    simp only [GLState.raster, Prod.mk.injEq] at hr
    exact hr.2.2.2
  · have hr := hinv.2
    simp only [GLState.raster, Prod.mk.injEq] at hr
    exact hr.1
  · have hr := hinv.2
    simp only [GLState.raster, Prod.mk.injEq] at hr
    exact hr.2.1
  · have hr := hinv.2
    simp only [GLState.raster, Prod.mk.injEq] at hr
    exact hr.2.2.1

/-! ## Theorems: the viewport after `draw` -/

/-- The viewport `draw` leaves: when the program draws do not touch the viewport, `draw`
entered with viewport `(x, y, w, h)` returns with viewport `(0, 0, w, h)`. Width and height
are restored, the origin is set to zero. -/
theorem draw_viewport (G : Glm) (E : ProgramDraws) (sc : Scene G) (r : OpenGLRenderer G)
    (σ : GLState) (hw : 0 ≤ σ.viewport.2.2.1) (hh : 0 ≤ σ.viewport.2.2.2)
    (hsky : ∀ p τ, (E.skyboxDraw p τ).viewport = τ.viewport)
    (hmodel : ∀ p τ, (E.modelDraw p τ).viewport = τ.viewport) :
    (draw G E sc r (GLContext.fresh G σ)).2.state.viewport
      = (0, 0, σ.viewport.2.2.1, σ.viewport.2.2.2) := by
  rw [draw_context, calls_eq]
  simp only [GLContext.fresh, colourPassCalls, run_append]
  generalize σ.run E (shadowPassCalls G sc r) = σ1
  have hset : (σ1.run E (colourEnter G σ)).viewport
      = (0, 0, σ.viewport.2.2.1, σ.viewport.2.2.2) := by
    have hneg : ¬ (σ.viewport.2.2.1 < 0 ∨ σ.viewport.2.2.2 < 0) := by omega
    simp [colourEnter, GLState.run, GLState.apply, hneg]
  refine (stamp_invariant E (fun τ => τ.viewport = (0, 0, σ.viewport.2.2.1, σ.viewport.2.2.2))
    (GLCall.skyboxProgramDraw r.openGLSkyboxProgram :: colourModels G r) _ ?_ hset).2
  intro c hc τ hτ
  rcases List.mem_cons.mp hc with h | h
  · subst h
    exact (hsky _ τ).trans hτ
  · obtain ⟨p, _, hp⟩ := List.mem_map.mp h
    subst hp
    exact (hmodel _ τ).trans hτ

/-- C1, at a failing input: `draw` entered with viewport `(5, 7, 800, 600)`, with program
draws that leave the GL state untouched, returns with viewport `(0, 0, 800, 600)`; the
origin read at entry is not put back. -/
theorem draw_resets_viewport_origin :
    sampleState.viewport = (5, 7, 800, 600)
      ∧ (draw termGlm drawsNeutral scene2
          (start termGlm loadersOk scene2 (sampleRenderer []) sampleCamera "").renderer
          (GLContext.fresh termGlm sampleState)).2.state.viewport = (0, 0, 800, 600)
      ∧ (draw termGlm drawsNeutral scene2
          (start termGlm loadersOk scene2 (sampleRenderer []) sampleCamera "").renderer
          (GLContext.fresh termGlm sampleState)).2.state.viewport ≠ sampleState.viewport := by
  decide

end SpectralBRDFExplorer
